import Mathlib

/-!
Verification development for the Playwright locator generator / verifier
(content script `content.js`, its legacy variant, and `popup.js`).

The document tree is modelled as a rose tree of elements.  Strings are
modelled as `List Char` so that rendering and substring reasoning can use
the list library.  Host-environment facts that the scripts consume are
modelled as element fields:

* `text`    — the element's `innerText` (the rendered, visible text of the
  subtree; script/style content is never rendered, so the separate
  script/style scrub of the legacy variant is the identity on this field);
* `value`   — the current form value (`element.value`);
* `visible` — `offsetParent !== null && !hidden` (both scripts use the two
  conditions together, and a hidden element has no offset parent).

The host CSS engine is modelled for the selector fragment the scripts emit
and accept: compound selectors `tag . class # id :nth-of-type(n)` chained
by descendant or child combinators.  A selector whose identifiers fall
outside the conservative identifier grammar is rejected, which models the
`SyntaxError` thrown by `querySelectorAll` / `matches` on invalid input.
Tag names are stored lowercase (the scripts lowercase `tagName` at every
use; the one uppercase comparison, `tagName !== 'BODY'`, is modelled as a
lowercase comparison against "body").
-/

set_option maxRecDepth 4000

abbrev Str := List Char

def str (s : String) : Str := s.toList

def isWsChar (c : Char) : Bool :=
  c = ' ' || c = '\t' || c = '\n' || c = '\r'

/-- JavaScript `String.prototype.trim`. -/
def trimStr (s : Str) : Str :=
  ((s.dropWhile isWsChar).reverse.dropWhile isWsChar).reverse

def collapseAux : Bool → Str → Str
  | _, [] => []
  | prevWs, c :: rest =>
    if isWsChar c then
      if prevWs then collapseAux true rest else ' ' :: collapseAux true rest
    else c :: collapseAux false rest

/-- JavaScript `replace(/\s+/g, ' ')`: collapse every whitespace run to one space. -/
def collapseWs (s : Str) : Str := collapseAux false s

def splitWsAux : Str → Str → List Str
  | [], acc => if acc.isEmpty then [] else [acc.reverse]
  | c :: rest, acc =>
    if isWsChar c then
      (if acc.isEmpty then [] else [acc.reverse]) ++ splitWsAux rest []
    else splitWsAux rest (c :: acc)

/-- Split on whitespace runs, dropping empty tokens (JS `split(/\s+/).filter(Boolean)`,
also the DOM's `classList` view of the `class` attribute). -/
def splitWs (s : Str) : List Str := splitWsAux s []

/-- JavaScript truthiness of a `getAttribute` result: `null` and `""` are falsy. -/
def jsTruthy : Option Str → Bool
  | none => false
  | some s => !s.isEmpty

/-- JavaScript `a || b` on two `getAttribute` results. -/
def jsOr (a b : Option Str) : Option Str := if jsTruthy a then a else b

/-- One element of the document tree (its own data, without the children). -/
structure ElemData where
  tag : Str
  attrs : List (Str × Str)
  text : Str
  value : Str
  visible : Bool
deriving DecidableEq

/-- `element.getAttribute(name)`. -/
def getAttr (el : ElemData) (name : Str) : Option Str :=
  (el.attrs.find? (fun p => decide (p.1 = name))).map (fun p => p.2)

inductive DomTree where
  | node : ElemData → List DomTree → DomTree

def DomTree.data : DomTree → ElemData
  | .node d _ => d

def DomTree.children : DomTree → List DomTree
  | .node _ cs => cs

/-- Walk a path of child indices down from a root. -/
def lookup : List Nat → DomTree → Option DomTree
  | [], t => some t
  | i :: p, t =>
    match (DomTree.children t)[i]? with
    | some c => lookup p c
    | none => none

/-- The node of `doc` a path denotes (a DOM element handle is a valid path). -/
def nodeAt (doc : DomTree) (p : List Nat) : Option DomTree := lookup p doc

/-- `element.parentElement` of the node at a path (the root has none). -/
def parentPath : List Nat → Option (List Nat)
  | [] => none
  | p => some p.dropLast

mutual
/-- Paths of every node of a tree, root included, in document (preorder) order. -/
def subPaths : DomTree → List (List Nat)
  | .node _ cs => [] :: subPathsList 0 cs

def subPathsList : Nat → List DomTree → List (List Nat)
  | _, [] => []
  | i, c :: cs => (subPaths c).map (fun p => i :: p) ++ subPathsList (i + 1) cs
end

/-- `scope.querySelectorAll('*')`: every strict descendant of the scope node. -/
def descendantPaths (doc : DomTree) (q : List Nat) : List (List Nat) :=
  match nodeAt doc q with
  | none => []
  | some sub => ((subPaths sub).filter (fun p => !p.isEmpty)).map (fun p => q ++ p)

/-- Absolute paths of the direct children of the node at `q`. -/
def childPaths (doc : DomTree) (q : List Nat) : List (List Nat) :=
  match nodeAt doc q with
  | none => []
  | some t => (List.range (DomTree.children t).length).map (fun i => q ++ [i])

/-- The `class` attribute as a token list (`Array.from(element.classList)`). -/
def classList (el : ElemData) : List Str :=
  splitWs ((getAttr el (str "class")).getD [])

/-- Substring test, JavaScript `haystack.includes(needle)`. -/
def containsStr (s pat : Str) : Bool := decide (pat <:+: s)

/-- The first document-order element with the given `id` (`document.getElementById`). -/
def getElementById (doc : DomTree) (i : Str) : Option ElemData :=
  ((subPaths doc).filterMap (fun p => (nodeAt doc p).map DomTree.data)).find?
    (fun el => decide (getAttr el (str "id") = some i))

/-- The first document-order `<label for=idv>` element
(`document.querySelector('label[for="..."]')`; `CSS.escape` only makes the query
well-formed, the semantics is attribute equality). -/
def querySelLabelFor (doc : DomTree) (idv : Str) : Option ElemData :=
  ((subPaths doc).filterMap (fun p => (nodeAt doc p).map DomTree.data)).find?
    (fun el => decide (el.tag = str "label" ∧ getAttr el (str "for") = some idv))

/-- `element.getAttribute('data-testid') || ... ('data-qa') || ... ('data-test')`,
shared verbatim by all three scripts. -/
def testIdOf (el : ElemData) : Option Str :=
  jsOr (jsOr (getAttr el (str "data-testid")) (getAttr el (str "data-qa")))
    (getAttr el (str "data-test"))

/-- `getImplicitRole` of `content.js`: explicit `role` attribute first, then the
fixed tag table, then the `input`-type table defaulting to `textbox`. -/
def getImplicitRole (el : ElemData) : Option Str :=
  let tagName := el.tag
  let type := getAttr el (str "type")
  let explicitRole := getAttr el (str "role")
  if jsTruthy explicitRole then explicitRole
  else if tagName = str "a" ∨ tagName = str "area" then some (str "link")
  else if tagName = str "button" then some (str "button")
  else if tagName = str "h1" ∨ tagName = str "h2" ∨ tagName = str "h3" ∨
      tagName = str "h4" ∨ tagName = str "h5" ∨ tagName = str "h6" then some (str "heading")
  else if tagName = str "img" then some (str "img")
  else if tagName = str "textarea" then some (str "textbox")
  else if tagName = str "select" then some (str "combobox")
  else if tagName = str "li" then some (str "listitem")
  else if tagName = str "ul" ∨ tagName = str "ol" then some (str "list")
  else if tagName = str "nav" then some (str "navigation")
  else if tagName = str "form" then some (str "form")
  else if tagName = str "dialog" then some (str "dialog")
  else if tagName = str "table" then some (str "table")
  else if tagName = str "tr" then some (str "row")
  else if tagName = str "td" then some (str "cell")
  else if tagName = str "th" then some (str "columnheader")
  else if tagName = str "thead" ∨ tagName = str "tbody" ∨ tagName = str "tfoot" then
    some (str "rowgroup")
  else if tagName = str "fieldset" then some (str "group")
  else if tagName = str "option" then some (str "option")
  else if tagName = str "optgroup" then some (str "group")
  else if tagName = str "progress" ∨ tagName = str "meter" then some (str "progressbar")
  else if tagName = str "article" then some (str "article")
  else if tagName = str "aside" then some (str "complementary")
  else if tagName = str "footer" then some (str "contentinfo")
  else if tagName = str "header" then some (str "banner")
  else if tagName = str "main" then some (str "main")
  else if tagName = str "section" then some (str "region")
  else if tagName = str "summary" then some (str "button")
  else if tagName = str "details" then some (str "group")
  else if tagName = str "input" then
    match type with
    | none => some (str "textbox")
    | some t =>
      if t = str "button" ∨ t = str "submit" ∨ t = str "reset" then some (str "button")
      else if t = str "checkbox" then some (str "checkbox")
      else if t = str "radio" then some (str "radio")
      else if t = str "number" then some (str "spinbutton")
      else if t = str "range" then some (str "slider")
      else some (str "textbox")
  else none

/-- `getAccessibleName` of `content.js`: aria-label, `<label for>`, submit-like
input value, image alt, visible text under the 120 cap, then title. -/
def getAccessibleName (doc : DomTree) (el : ElemData) : Str :=
  let ariaLabel := getAttr el (str "aria-label")
  if jsTruthy ariaLabel then trimStr (ariaLabel.getD [])
  else
    let idv := getAttr el (str "id")
    match (if jsTruthy idv then querySelLabelFor doc (idv.getD []) else none) with
    | some lab => trimStr lab.text
    | none =>
      let tagName := el.tag
      let type := getAttr el (str "type")
      if tagName = str "input" ∧
          (type = some (str "submit") ∨ type = some (str "button") ∨
            type = some (str "reset")) ∧ ¬ el.value.isEmpty then
        trimStr el.value
      else if tagName = str "img" ∧ jsTruthy (getAttr el (str "alt")) then
        trimStr ((getAttr el (str "alt")).getD [])
      else
        let text := collapseWs (trimStr el.text)
        if ¬ text.isEmpty ∧ text.length < 120 then text
        else if jsTruthy (getAttr el (str "title")) then
          trimStr ((getAttr el (str "title")).getD [])
        else []

/-- A compound CSS selector of the fragment the scripts emit and accept:
optional tag, optional id, class tokens, optional `:nth-of-type(n)`. -/
structure SimpleSel where
  tag : Option Str
  id : Option Str
  classes : List Str
  nth : Option Nat
deriving DecidableEq

def identChar (c : Char) : Bool := c.isAlpha || c.isDigit || c = '-' || c = '_'

/-- Conservative CSS identifier: letters, digits, `-`, `_`, not starting with a
digit or `-`.  Identifiers outside this grammar make the host engine throw. -/
def identOk (s : Str) : Bool :=
  match s with
  | [] => false
  | c :: _ => (c.isAlpha || c = '_') && s.all identChar

def selValid (sel : SimpleSel) : Bool :=
  (match sel.tag with | none => true | some t => identOk t) &&
  (match sel.id with | none => true | some i => identOk i) &&
  sel.classes.all identOk

/-- 1-based position of the node among its parent's children of the same tag
(the meaning CSS gives `:nth-of-type`). -/
def sameTagIndex (doc : DomTree) (p : List Nat) : Nat :=
  match parentPath p with
  | none => 1
  | some q =>
    let i := p.getLastD 0
    match nodeAt doc q, nodeAt doc p with
    | some parent, some t =>
      (((DomTree.children parent).take (i + 1)).filter
        (fun c => decide ((DomTree.data c).tag = (DomTree.data t).tag))).length
    | _, _ => 1

/-- CSS semantics of a compound selector at a node (`element.matches`). -/
def selMatches (doc : DomTree) (p : List Nat) (sel : SimpleSel) : Bool :=
  match nodeAt doc p with
  | none => false
  | some t =>
    let el := DomTree.data t
    (match sel.tag with | none => true | some tg => decide (el.tag = tg)) &&
    (match sel.id with | none => true | some idv => decide (getAttr el (str "id") = some idv)) &&
    sel.classes.all (fun c => (classList el).any (fun d => decide (d = c))) &&
    (match sel.nth with | none => true | some k => decide (sameTagIndex doc p = k))

def renderSel (sel : SimpleSel) : Str :=
  (match sel.tag with | none => [] | some t => t) ++
  (match sel.id with | none => [] | some i => '#' :: i) ++
  (sel.classes.flatMap (fun c => '.' :: c)) ++
  (match sel.nth with
   | none => []
   | some k => str ":nth-of-type(" ++ str (toString k) ++ str ")")

/-- The stable-class filter of `getRelativeCSS`
(`cls && !cls.includes(':') && !cls.includes('[') && cls.length > 2`). -/
def stableClassesOf (el : ElemData) : List Str :=
  (classList el).filter (fun c =>
    !c.isEmpty && !c.any (fun ch => decide (ch = ':')) &&
    !c.any (fun ch => decide (ch = '[')) && decide (c.length > 2))

/-- The tag-plus-stable-classes selector `getRelativeCSS` builds for an element. -/
def baseSelOf (el : ElemData) : SimpleSel :=
  ⟨some el.tag, none, stableClassesOf el, none⟩

/-- `getRelativeCSS(element, parent)` of `content.js`.  `none` models the thrown
exception: a null parent (`parent.children`), or stable classes that make
`sibling.matches(selector)` a syntax error.  When more than one sibling matches
the base selector, the appended `:nth-of-type` index counts matching siblings
(JS `indexOf`, `0` when the element is not among them), although CSS interprets
it against same-tag siblings — the model keeps both sides of that mismatch. -/
def getRelativeCSS (doc : DomTree) (elPath : List Nat) (pPath : Option (List Nat)) :
    Option SimpleSel :=
  match pPath with
  | none => none
  | some pp =>
    match nodeAt doc elPath with
    | none => none
    | some t =>
      let base := baseSelOf (DomTree.data t)
      if ¬ selValid base then none
      else
        let sibs := childPaths doc pp
        let matching := sibs.filter (fun q => selMatches doc q base)
        if matching.length > 1 then
          let nthIdx :=
            match matching.findIdx? (fun q => decide (q = elPath)) with
            | some i => i + 1
            | none => 0
          some ⟨base.tag, base.id, base.classes, some nthIdx⟩
        else some base

/-- `isLocatorUniqueInScope` of `content.js`: only `getByRole` is handled; the
scope's `querySelectorAll('*')` pool is every element for the document scope and
every strict descendant for an element scope. -/
def isLocatorUniqueInScope (doc : DomTree) (locator : Str) (value : Str)
    (targetPath : List Nat) (scope : Option (List Nat)) : Bool :=
  if locator = str "getByRole" then
    let pool := match scope with
      | none => subPaths doc
      | some q => descendantPaths doc q
    let elements := pool.filter (fun p =>
      match nodeAt doc p with
      | some t => decide (getImplicitRole (DomTree.data t) = some value)
      | none => false)
    decide (elements.length = 1 ∧ elements.head? = some targetPath)
  else false

inductive OptVal where
  | s : Str → OptVal
  | b : Bool → OptVal
deriving DecidableEq

/-- JS `str.replace(/"/g, '\\"')`, the `escapeStr` helper of `generateBestLocator`. -/
def escapeStr (s : Str) : Str :=
  s.flatMap (fun c => if c = '"' then ['\\', '"'] else [c])

/-- JS `method.replace(/([A-Z])/g, '_$1').toLowerCase()`. -/
def toSnake (m : Str) : Str :=
  (m.flatMap (fun c => if c.isUpper then ['_', c] else [c])).map Char.toLower

def joinSep (sep : Str) : List Str → Str
  | [] => []
  | [x] => x
  | x :: y :: xs => x ++ sep ++ joinSep sep (y :: xs)

def fmtOptPy (kv : Str × OptVal) : Str :=
  match kv.2 with
  | .b v => kv.1 ++ str "=" ++ (if v then str "True" else str "False")
  | .s v => kv.1 ++ str "=\x22" ++ escapeStr v ++ str "\x22"

def fmtOptJs (kv : Str × OptVal) : Str :=
  match kv.2 with
  | .b v => kv.1 ++ str ": " ++ (if v then str "true" else str "false")
  | .s v => kv.1 ++ str ": \x22" ++ escapeStr v ++ str "\x22"

/-- The `formatLocator` closure of `generateBestLocator` in `content.js`:
snake-cased method and `k=v` options for pytest, camel-cased method and an
object literal for JS. -/
def formatLocator (isPytest : Bool) (method : Str) (value : Str)
    (options : Option (List (Str × OptVal))) : Str :=
  let methodName := if isPytest then toSnake method else method
  let formattedValue := str "\x22" ++ escapeStr value ++ str "\x22"
  match options with
  | none => str "page." ++ methodName ++ str "(" ++ formattedValue ++ str ")"
  | some opts =>
    let optionsStr :=
      if isPytest then joinSep (str ", ") (opts.map fmtOptPy)
      else str "\x7b " ++ joinSep (str ", ") (opts.map fmtOptJs) ++ str " \x7d"
    str "page." ++ methodName ++ str "(" ++ formattedValue ++ str ", " ++ optionsStr ++ str ")"

/-- JS `replace(/^page\./, '')` on a rendered locator. -/
def stripPage (s : Str) : Str :=
  if str "page." <+: s then s.drop 5 else s

def cssWarnComment (isPytest : Bool) : Str :=
  if isPytest then str "# WARNING: CSS selector fallback. Consider adding a data-testid."
  else str "// WARNING: CSS selector fallback. Consider adding a data-testid."

/-- Outcome of one pass over the ancestor-chaining loop: an exception escaped,
a chained locator was returned, or the loop fell through to the CSS fallback. -/
inductive ChainRes where
  | thrown : ChainRes
  | found : Str → ChainRes
  | fallthrough : ChainRes
deriving DecidableEq

/-- The ancestor-chaining `for` loop of `generateBestLocator` in `content.js`
(`for (let i = 0; i < 4 && parentElement && parentElement.tagName !== 'BODY'; ...)`),
parameterised by the recursive call on the parent (`recur`), whose thrown
exception (`none`) propagates.  A parent locator is used only when it has no
`locator(` segment and no `WARNING` comment; a rendered locator is never the
empty string, so the `parentLocator &&` truthiness test always passes. -/
def chainLoopP (doc : DomTree) (elPath : List Nat) (role : Option Str) (isPytest : Bool)
    (recur : List Nat → Option Str) : Nat → Option (List Nat) → ChainRes
  | _, none => .fallthrough
  | 0, some _ => .fallthrough
  | rem + 1, some pPath =>
    match nodeAt doc pPath with
    | none => .thrown
    | some pt =>
      if (DomTree.data pt).tag = str "body" then .fallthrough
      else
        match recur pPath with
        | none => .thrown
        | some parentLocator =>
          if containsStr parentLocator (str "locator(") = false ∧
              containsStr parentLocator (str "WARNING") = false then
            if jsTruthy role ∧
                isLocatorUniqueInScope doc (str "getByRole") (role.getD []) elPath (some pPath) then
              .found (parentLocator ++ str "." ++
                stripPage (formatLocator isPytest (str "getByRole") (role.getD []) none))
            else
              match getRelativeCSS doc elPath (some pPath) with
              | none => .thrown
              | some sel =>
                if ((descendantPaths doc pPath).filter (fun q => selMatches doc q sel)).length = 1 then
                  .found (parentLocator ++ str ".locator(\x22" ++
                    escapeStr (renderSel sel) ++ str "\x22)")
                else chainLoopP doc elPath role isPytest recur rem (parentPath pPath)
          else chainLoopP doc elPath role isPytest recur rem (parentPath pPath)

/-- `generateBestLocator(element, framework)` of `content.js`, with a fuel
parameter for the self-recursion on ancestors (any fuel above the node's depth
gives the same answer, see `gblF_fuel_irrelevant`).  `none` models a thrown
exception escaping the call. -/
def gblF : Nat → DomTree → List Nat → Str → Option Str
  | 0, _, _, _ => none
  | fuel' + 1, doc, path, framework =>
    match nodeAt doc path with
    | none => none
    | some t =>
      let el := DomTree.data t
      let isPytest := decide (framework = str "pytest")
      let testId := testIdOf el
      if jsTruthy testId then
        some (formatLocator isPytest (str "getByTestId") (testId.getD []) none)
      else
        let role := getImplicitRole el
        let accName := getAccessibleName doc el
        if jsTruthy role ∧ ¬ accName.isEmpty then
          some (formatLocator isPytest (str "getByRole") (role.getD [])
            (some [(str "name", .s accName), (str "exact", .b true)]))
        else
          let placeholder := getAttr el (str "placeholder")
          if jsTruthy placeholder then
            some (formatLocator isPytest (str "getByPlaceholder") (placeholder.getD [])
              (some [(str "exact", .b true)]))
          else
            let altText := getAttr el (str "alt")
            if jsTruthy altText then
              some (formatLocator isPytest (str "getByAltText") (altText.getD [])
                (some [(str "exact", .b true)]))
            else if ¬ accName.isEmpty then
              some (formatLocator isPytest (str "getByText") accName
                (some [(str "exact", .b true)]))
            else if jsTruthy role ∧
                isLocatorUniqueInScope doc (str "getByRole") (role.getD []) path none then
              some (formatLocator isPytest (str "getByRole") (role.getD []) none)
            else
              match chainLoopP doc path role isPytest
                  (fun q => gblF fuel' doc q framework) 4 (parentPath path) with
              | .thrown => none
              | .found s => some s
              | .fallthrough =>
                match getRelativeCSS doc path (parentPath path) with
                | none => none
                | some sel =>
                  some (str "page.locator(\x22" ++ escapeStr (renderSel sel) ++
                    str "\x22) " ++ cssWarnComment isPytest)

/-- `generateBestLocator` at its canonical fuel (one more than the node's depth,
which the ancestor recursion never exhausts). -/
def generateBestLocator (doc : DomTree) (path : List Nat) (framework : Str) : Option Str :=
  gblF (path.length + 1) doc path framework

/-- One parsed compound of a user-typed selector together with the combinator
that links it to the compound on its left (`true` = child `>`), meaningless on
the first compound. -/
abbrev SelChain := List (Bool × SimpleSel)

def parseIdentTok (s : Str) : Option (Str × Str) :=
  let tok := s.takeWhile identChar
  if identOk tok then some (tok, s.drop tok.length) else none

def parseNatTok (s : Str) : Option (Nat × Str) :=
  let ds := s.takeWhile Char.isDigit
  if ds.isEmpty then none
  else some (ds.foldl (fun n c => n * 10 + (c.toNat - 48)) 0, s.drop ds.length)

/-- Parse the `.class` / `#id` / `:nth-of-type(n)` tail of a compound selector. -/
def parseCompoundParts (fuel : Nat) (acc : SimpleSel) (s : Str) : Option (SimpleSel × Str) :=
  match fuel with
  | 0 => none
  | fuel' + 1 =>
    match s with
    | '.' :: rest =>
      match parseIdentTok rest with
      | some (tok, rest2) =>
        parseCompoundParts fuel' ⟨acc.tag, acc.id, acc.classes ++ [tok], acc.nth⟩ rest2
      | none => none
    | '#' :: rest =>
      match parseIdentTok rest with
      | some (tok, rest2) => parseCompoundParts fuel' ⟨acc.tag, some tok, acc.classes, acc.nth⟩ rest2
      | none => none
    | ':' :: rest =>
      if str "nth-of-type(" <+: rest then
        match parseNatTok (rest.drop 12) with
        | some (n, r2) =>
          match r2 with
          | ')' :: r3 => parseCompoundParts fuel' ⟨acc.tag, acc.id, acc.classes, some n⟩ r3
          | _ => none
        | none => none
      else none
    | _ => some (acc, s)

def parseCompound (s : Str) : Option (SimpleSel × Str) :=
  let start : SimpleSel := ⟨none, none, [], none⟩
  match s with
  | [] => none
  | '*' :: rest => parseCompoundParts (rest.length + 1) start rest
  | c :: _ =>
    if identChar c then
      match parseIdentTok s with
      | some (tok, rest) => parseCompoundParts (rest.length + 1) ⟨some tok, none, [], none⟩ rest
      | none => none
    else if c = '.' ∨ c = '#' ∨ c = ':' then
      match parseCompoundParts (s.length + 1) start s with
      | some (sel, rest) => if rest.length < s.length then some (sel, rest) else none
      | none => none
    else none

/-- Parse a selector chain: compounds separated by whitespace (descendant) or
`>` (child).  Anything outside the fragment is a syntax error (`none`). -/
def parseChain (fuel : Nat) (s : Str) : Option SelChain :=
  match fuel with
  | 0 => none
  | fuel' + 1 =>
    match parseCompound s with
    | none => none
    | some (sel, rest) =>
      let ws := rest.takeWhile isWsChar
      let rest2 := rest.dropWhile isWsChar
      match rest2 with
      | [] => some [(false, sel)]
      | '>' :: r3 =>
        match parseChain fuel' (r3.dropWhile isWsChar) with
        | some ((_, s2) :: tl) => some ((false, sel) :: (true, s2) :: tl)
        | _ => none
      | _ =>
        if ws.isEmpty then none
        else
          match parseChain fuel' rest2 with
          | some ((_, s2) :: tl) => some ((false, sel) :: (false, s2) :: tl)
          | _ => none

/-- Strict ancestors of a path (as paths), nearest excluded order irrelevant. -/
def properAncestorsOf (p : List Nat) : List (List Nat) :=
  (List.range p.length).map (fun k => p.take k)

/-- Match a reversed selector chain at a node: the head compound matches the
node, and the stored combinator steps to the parent (child) or to some strict
ancestor (descendant) for the rest. -/
def matchesChainRev (doc : DomTree) : List Nat → SelChain → Bool
  | _, [] => true
  | p, (isChild, sel) :: rest =>
    selMatches doc p sel &&
    (match rest with
     | [] => true
     | _ =>
       if isChild then
         match parentPath p with
         | some q => matchesChainRev doc q rest
         | none => false
       else (properAncestorsOf p).any (fun q => matchesChainRev doc q rest))

/-- `document.querySelectorAll(text)` on free text: `none` is a thrown
`SyntaxError`, otherwise all matching elements in document order. -/
def cssQueryAll (doc : DomTree) (s : Str) : Option (List (List Nat)) :=
  let s' := trimStr s
  match parseChain (s'.length + 1) s' with
  | none => none
  | some chain =>
    some ((subPaths doc).filter (fun p => matchesChainRev doc p chain.reverse))

/-- `highlightElements` of `popup.js`: clear marks, query, count; a thrown
selector error is caught and yields 0. -/
def highlightElements (doc : DomTree) (selector : Str) : Nat :=
  match cssQueryAll doc selector with
  | some els => els.length
  | none => 0

/-- Try the regex `/(getBy[A-Za-z]+)\s*\((.*)\)/` anchored at the start of `s`:
`getBy`, at least one more letter (greedy), optional whitespace, `(`, then the
greedy group runs to the last `)`. -/
def tryGetByAt (s : Str) : Option (Str × Str) :=
  if str "getBy" <+: s then
    let after := s.drop 5
    let letters := after.takeWhile Char.isAlpha
    if letters.isEmpty then none
    else
      match (after.drop letters.length).dropWhile isWsChar with
      | '(' :: rest3 =>
        match ((rest3.enum.filter (fun ic => decide (ic.2 = ')'))).map
            (fun ic => ic.1)).getLast? with
        | some k => some (str "getBy" ++ letters, rest3.take k)
        | none => none
      | _ => none
  else none

/-- Leftmost match of `/(getBy[A-Za-z]+)\s*\((.*)\)/` (method, raw argument text). -/
def scanGetBy : Str → Option (Str × Str)
  | [] => none
  | c :: rest =>
    match tryGetByAt (c :: rest) with
    | some r => some r
    | none => scanGetBy rest

def isQuoteChar (c : Char) : Bool := c = '"' || c = '\'' || c = '`'

/-- The lazy group of `/locator\s*\(\s*(['"`])(.*?)\1\s*\)/` after its opening
quote: the first closing quote that is followed by optional whitespace and `)`. -/
def scanLazyClose (q : Char) : Str → Str → Option Str
  | [], _ => none
  | c :: rest, acc =>
    if c = q then
      match rest.dropWhile isWsChar with
      | ')' :: _ => some acc.reverse
      | _ => scanLazyClose q rest (c :: acc)
    else scanLazyClose q rest (c :: acc)

def tryLocatorAt (s : Str) : Option Str :=
  if str "locator" <+: s then
    match (s.drop 7).dropWhile isWsChar with
    | '(' :: r2 =>
      match r2.dropWhile isWsChar with
      | q :: r4 => if isQuoteChar q then scanLazyClose q r4 [] else none
      | [] => none
    | _ => none
  else none

/-- Leftmost match of `/locator\s*\(\s*(['"`])(.*?)\1\s*\)/` (the quoted selector). -/
def scanLocatorCss : Str → Option Str
  | [] => none
  | c :: rest =>
    match tryLocatorAt (c :: rest) with
    | some r => some r
    | none => scanLocatorCss rest

/-- The first quoted chunk of the raw arguments, regex `/['"`](.*?)['"`]/`
(opening and closing quote characters may differ). -/
def firstQuoted (s : Str) : Option Str :=
  match s.dropWhile (fun c => !isQuoteChar c) with
  | [] => none
  | _ :: rest =>
    let grp := rest.takeWhile (fun c => !isQuoteChar c)
    if (rest.drop grp.length).isEmpty then none else some grp

def tryNameAt (s : Str) : Option Str :=
  if str "name" <+: s then
    match (s.drop 4).dropWhile isWsChar with
    | ':' :: r2 =>
      match r2.dropWhile isWsChar with
      | q :: r4 =>
        if isQuoteChar q then
          let grp := r4.takeWhile (fun c => !isQuoteChar c)
          if (r4.drop grp.length).isEmpty then none else some grp
        else none
      | [] => none
    | _ => none
  else none

/-- Leftmost match of `/name\s*:\s*['"`](.*?)['"`]/` in the raw arguments. -/
def scanNameOpt : Str → Option Str
  | [] => none
  | c :: rest =>
    match tryNameAt (c :: rest) with
    | some r => some r
    | none => scanNameOpt rest

/-- The per-method predicate of the verifier in `findAndHighlight` (`content.js`,
the `switch (method)` inside the visible-element filter). -/
def matcherPred (doc : DomTree) (method : Str) (value : Str) (rawArgs : Str)
    (p : List Nat) : Bool :=
  match nodeAt doc p with
  | none => false
  | some t =>
    let el := DomTree.data t
    if method = str "getByRole" then
      match scanNameOpt rawArgs with
      | some nm =>
        decide (getImplicitRole el = some value) && containsStr (getAccessibleName doc el) nm
      | none => decide (getImplicitRole el = some value)
    else if method = str "getByText" then containsStr (trimStr el.text) value
    else if method = str "getByLabel" then containsStr (getAccessibleName doc el) value
    else if method = str "getByPlaceholder" then decide (getAttr el (str "placeholder") = some value)
    else if method = str "getByAltText" then decide (getAttr el (str "alt") = some value)
    else if method = str "getByTitle" then decide (getAttr el (str "title") = some value)
    else if method = str "getByTestId" then decide (testIdOf el = some value)
    else false

/-- `findAndHighlight(locatorString)` of `content.js`.  The raw-CSS attempt is
inside try/catch; the `locator("…")` re-query on line 186 is not, so `none`
models that uncaught exception.  Highlight side effects are dropped; the return
value is the match count. -/
def findAndHighlight (doc : DomTree) (locatorString : Str) : Option Nat :=
  let cssAttempt : List (List Nat) :=
    match cssQueryAll doc locatorString with
    | none => []
    | some els =>
      if els.length > 0 ∧ containsStr locatorString (str "getBy") = false then els else []
  if cssAttempt.length ≠ 0 then some cssAttempt.length
  else
    match scanLocatorCss locatorString with
    | some inner => (cssQueryAll doc inner).map List.length
    | none =>
      match scanGetBy locatorString with
      | some mr =>
        let rawArgs := trimStr mr.2
        match firstQuoted rawArgs with
        | some value =>
          let allVisible := (subPaths doc).filter (fun p =>
            match nodeAt doc p with
            | some t => (DomTree.data t).visible
            | none => false)
          some (allVisible.filter (matcherPred doc mr.1 value rawArgs)).length
        | none => some 0
      | none => some 0

namespace V2

/-- `getImplicitRole` of the legacy content-script variant: explicit role first,
then its own tag switch (no `area`/`details`, `th`/`td` both `cell`, extra
`menu`/`menuitem`/`tab`/`output`/`datalist` rows), and an `input` branch with
no default (`break` falls through to `null`; `number` is `textbox` here). -/
def getImplicitRole (el : ElemData) : Option Str :=
  let tagName := el.tag
  let type := getAttr el (str "type")
  let role := getAttr el (str "role")
  if jsTruthy role then role
  else if tagName = str "button" then some (str "button")
  else if tagName = str "a" then some (str "link")
  else if tagName = str "img" then some (str "img")
  else if tagName = str "textarea" then some (str "textbox")
  else if tagName = str "select" then some (str "combobox")
  else if tagName = str "input" then
    match type with
    | none => none
    | some t =>
      if t = str "button" ∨ t = str "submit" ∨ t = str "reset" then some (str "button")
      else if t = str "checkbox" then some (str "checkbox")
      else if t = str "radio" then some (str "radio")
      else if t = str "text" ∨ t = str "email" ∨ t = str "password" ∨ t = str "search" ∨
          t = str "tel" ∨ t = str "url" ∨ t = str "number" ∨ t = str "date" ∨
          t = str "range" ∨ t = str "color" then some (str "textbox")
      else none
  else if tagName = str "h1" ∨ tagName = str "h2" ∨ tagName = str "h3" ∨
      tagName = str "h4" ∨ tagName = str "h5" ∨ tagName = str "h6" then some (str "heading")
  else if tagName = str "li" then some (str "listitem")
  else if tagName = str "ul" ∨ tagName = str "ol" then some (str "list")
  else if tagName = str "nav" then some (str "navigation")
  else if tagName = str "form" then some (str "form")
  else if tagName = str "dialog" then some (str "dialog")
  else if tagName = str "menu" then some (str "menu")
  else if tagName = str "menuitem" then some (str "menuitem")
  else if tagName = str "tab" then some (str "tab")
  else if tagName = str "table" then some (str "table")
  else if tagName = str "th" ∨ tagName = str "td" then some (str "cell")
  else if tagName = str "tr" then some (str "row")
  else if tagName = str "fieldset" then some (str "group")
  else if tagName = str "option" then some (str "option")
  else if tagName = str "meter" ∨ tagName = str "progress" then some (str "progressbar")
  else if tagName = str "article" then some (str "article")
  else if tagName = str "aside" then some (str "complementary")
  else if tagName = str "footer" then some (str "contentinfo")
  else if tagName = str "header" then some (str "banner")
  else if tagName = str "main" then some (str "main")
  else if tagName = str "section" then some (str "region")
  else if tagName = str "output" then some (str "status")
  else if tagName = str "summary" then some (str "button")
  else if tagName = str "datalist" then some (str "listbox")
  else none

/-- `getAccessibleName` of the legacy variant: aria-label, aria-labelledby,
`<label for>`, form values, image alt, visible text under the 80 cap (its
script/style scrub is the identity on the modelled `innerText`), title under
the same cap. -/
def getAccessibleName (doc : DomTree) (el : ElemData) : Str :=
  let ariaLabel := getAttr el (str "aria-label")
  if jsTruthy ariaLabel then trimStr (ariaLabel.getD [])
  else
    let alby := getAttr el (str "aria-labelledby")
    let labelTexts :=
      if jsTruthy alby then
        ((splitWs (alby.getD [])).map (fun i =>
          match getElementById doc i with
          | some lab => trimStr lab.text
          | none => [])).filter (fun t => !t.isEmpty)
      else []
    if jsTruthy alby ∧ labelTexts ≠ [] then trimStr (joinSep (str " ") labelTexts)
    else
      let idv := getAttr el (str "id")
      match (if jsTruthy idv then querySelLabelFor doc (idv.getD []) else none) with
      | some lab => trimStr lab.text
      | none =>
        let tagName := el.tag
        let type := getAttr el (str "type")
        if tagName = str "input" ∧
            (type = some (str "submit") ∨ type = some (str "reset") ∨
              type = some (str "button")) ∧ ¬ el.value.isEmpty then
          trimStr el.value
        else if ((tagName = str "input" ∧
              (type = some (str "text") ∨ type = some (str "email") ∨
                type = some (str "password") ∨ type = some (str "search") ∨
                type = some (str "tel") ∨ type = some (str "url") ∨
                type = some (str "number"))) ∨ tagName = str "textarea") ∧
            ¬ el.value.isEmpty then
          trimStr el.value
        else if tagName = str "img" ∧ jsTruthy (getAttr el (str "alt")) then
          trimStr ((getAttr el (str "alt")).getD [])
        else
          let textContent := trimStr el.text
          if el.visible ∧ textContent.length > 0 ∧ textContent.length < 80 then textContent
          else
            let title := getAttr el (str "title")
            if jsTruthy title ∧ (title.getD []).length < 80 then trimStr (title.getD [])
            else []

/-- The options object handed to `validatePlaywrightLocatorUniqueness`. -/
structure VOpts where
  exact : Option Bool
  name : Option Str
deriving DecidableEq

def noOpts : VOpts := ⟨none, none⟩

/-- The visibility guard of the candidate filter in
`validatePlaywrightLocatorUniqueness` (not hidden, not script/style). -/
def candidateVisible (el : ElemData) : Bool :=
  el.visible && decide (el.tag ≠ str "script") && decide (el.tag ≠ str "style")

/-- The per-method part of the candidate filter of
`validatePlaywrightLocatorUniqueness` (the Evaluator's strategy predicate). -/
def matchesStrategy (doc : DomTree) (method : Str) (value : Str) (opts : VOpts)
    (el : ElemData) : Bool :=
  let exactMatch := decide (opts.exact = some true)
  if method = str "getByRole" then
    let actualRole := jsOr (getAttr el (str "role")) (getImplicitRole el)
    if actualRole ≠ some value then false
    else
      match opts.name with
      | some nm =>
        let accessibleName := getAccessibleName doc el
        if exactMatch then decide (accessibleName = nm) else containsStr accessibleName nm
      | none => true
  else if method = str "getByText" then
    let text := getAccessibleName doc el
    if text.isEmpty then false
    else if exactMatch then decide (text = value) else containsStr text value
  else if method = str "getByLabel" then
    let label := getAccessibleName doc el
    if label.isEmpty then false
    else if exactMatch then decide (label = value) else containsStr label value
  else if method = str "getByPlaceholder" then
    match getAttr el (str "placeholder") with
    | none => false
    | some ph =>
      if ph.isEmpty then false
      else if exactMatch then decide (ph = value) else containsStr ph value
  else if method = str "getByAltText" then
    if el.tag ≠ str "img" then false
    else
      match getAttr el (str "alt") with
      | none => false
      | some alt =>
        if alt.isEmpty then false
        else if exactMatch then decide (alt = value) else containsStr alt value
  else if method = str "getByTitle" then
    match getAttr el (str "title") with
    | none => false
    | some ti =>
      if ti.isEmpty then false
      else if exactMatch then decide (ti = value) else containsStr ti value
  else if method = str "getByTestId" then decide (testIdOf el = some value)
  else false

/-- `validatePlaywrightLocatorUniqueness` of the legacy variant: all visible
non-script/style elements matching the strategy predicate, uniqueness and
identity with the target. -/
def validatePlaywrightLocatorUniqueness (doc : DomTree) (targetPath : List Nat)
    (method : Str) (value : Str) (opts : VOpts) : Bool :=
  let candidates := (subPaths doc).filter (fun p =>
    match nodeAt doc p with
    | some t => candidateVisible (DomTree.data t) && matchesStrategy doc method value opts (DomTree.data t)
    | none => false)
  decide (candidates.length = 1 ∧ candidates.head? = some targetPath)

end V2

/-- The strategy `generateBestLocator` settles on, with its payloads, before any
dialect-specific rendering. -/
inductive Choice where
  | testId (v : Str)
  | roleName (role name : Str)
  | placeholder (v : Str)
  | altText (v : Str)
  | text (v : Str)
  | roleAlone (v : Str)
  | chainedRole (parent : Choice) (role : Str)
  | chainedCss (parent : Choice) (sel : SimpleSel)
  | cssFallback (sel : SimpleSel)
deriving DecidableEq

/-- Render a chosen strategy in one dialect, reproducing the exact strings of
the return sites of `generateBestLocator`. -/
def renderChoiceB (isPytest : Bool) : Choice → Str
  | .testId v => formatLocator isPytest (str "getByTestId") v none
  | .roleName r n =>
    formatLocator isPytest (str "getByRole") r
      (some [(str "name", .s n), (str "exact", .b true)])
  | .placeholder v =>
    formatLocator isPytest (str "getByPlaceholder") v (some [(str "exact", .b true)])
  | .altText v =>
    formatLocator isPytest (str "getByAltText") v (some [(str "exact", .b true)])
  | .text v =>
    formatLocator isPytest (str "getByText") v (some [(str "exact", .b true)])
  | .roleAlone r => formatLocator isPytest (str "getByRole") r none
  | .chainedRole parent r =>
    renderChoiceB isPytest parent ++ str "." ++
      stripPage (formatLocator isPytest (str "getByRole") r none)
  | .chainedCss parent sel =>
    renderChoiceB isPytest parent ++ str ".locator(\x22" ++
      escapeStr (renderSel sel) ++ str "\x22)"
  | .cssFallback sel =>
    str "page.locator(\x22" ++ escapeStr (renderSel sel) ++ str "\x22) " ++
      cssWarnComment isPytest

/-- Render a chosen strategy for a framework string
(`framework === 'pytest'` selects the pytest dialect, anything else JS). -/
def renderChoice (framework : Str) (c : Choice) : Str :=
  renderChoiceB (decide (framework = str "pytest")) c

inductive ChainResC where
  | thrown : ChainResC
  | found : Choice → ChainResC
  | fallthrough : ChainResC
deriving DecidableEq

/-- The ancestor-chaining loop at the strategy level: the same control flow as
`chainLoopP`, with the parent-locator guard read off the pytest rendering of
the parent's choice (the dialect-agreement lemma shows every dialect renders
the same guard bits). -/
def chooseChainP (doc : DomTree) (elPath : List Nat) (role : Option Str)
    (recur : List Nat → Option Choice) : Nat → Option (List Nat) → ChainResC
  | _, none => .fallthrough
  | 0, some _ => .fallthrough
  | rem + 1, some pPath =>
    match nodeAt doc pPath with
    | none => .thrown
    | some pt =>
      if (DomTree.data pt).tag = str "body" then .fallthrough
      else
        match recur pPath with
        | none => .thrown
        | some pc =>
          if containsStr (renderChoiceB true pc) (str "locator(") = false ∧
              containsStr (renderChoiceB true pc) (str "WARNING") = false then
            if jsTruthy role ∧
                isLocatorUniqueInScope doc (str "getByRole") (role.getD []) elPath (some pPath) then
              .found (.chainedRole pc (role.getD []))
            else
              match getRelativeCSS doc elPath (some pPath) with
              | none => .thrown
              | some sel =>
                if ((descendantPaths doc pPath).filter (fun q => selMatches doc q sel)).length = 1 then
                  .found (.chainedCss pc sel)
                else chooseChainP doc elPath role recur rem (parentPath pPath)
          else chooseChainP doc elPath role recur rem (parentPath pPath)

/-- The dialect-independent strategy selection underlying `generateBestLocator`:
the same tier cascade with the rendering stripped. -/
def chooseF : Nat → DomTree → List Nat → Option Choice
  | 0, _, _ => none
  | fuel' + 1, doc, path =>
    match nodeAt doc path with
    | none => none
    | some t =>
      let el := DomTree.data t
      let testId := testIdOf el
      if jsTruthy testId then some (.testId (testId.getD []))
      else
        let role := getImplicitRole el
        let accName := getAccessibleName doc el
        if jsTruthy role ∧ ¬ accName.isEmpty then some (.roleName (role.getD []) accName)
        else
          let placeholder := getAttr el (str "placeholder")
          if jsTruthy placeholder then some (.placeholder (placeholder.getD []))
          else
            let altText := getAttr el (str "alt")
            if jsTruthy altText then some (.altText (altText.getD []))
            else if ¬ accName.isEmpty then some (.text accName)
            else if jsTruthy role ∧
                isLocatorUniqueInScope doc (str "getByRole") (role.getD []) path none then
              some (.roleAlone (role.getD []))
            else
              match chooseChainP doc path role (fun q => chooseF fuel' doc q) 4 (parentPath path) with
              | .thrown => none
              | .found c => some c
              | .fallthrough =>
                match getRelativeCSS doc path (parentPath path) with
                | none => none
                | some sel => some (.cssFallback sel)

/-- Strategy selection at the canonical fuel. -/
def chooseStrategy (doc : DomTree) (path : List Nat) : Option Choice :=
  chooseF (path.length + 1) doc path

mutual
/-- Every element's tag-plus-stable-classes selector is valid, so the host
engine never throws inside `getRelativeCSS` for this document. -/
def docSelSafe : DomTree → Bool
  | .node d cs => selValid (baseSelOf d) && docSelSafeList cs

def docSelSafeList : List DomTree → Bool
  | [] => true
  | c :: cs => docSelSafe c && docSelSafeList cs
end

/-- The tag of the document's root element (its body). -/
def rootTag (doc : DomTree) : Str := (DomTree.data doc).tag

/-- The amended reading of the Evaluator's TestId predicate: the first
non-empty attribute of the family shadows the later ones; when `data-testid`
and `data-qa` are absent or empty, the raw `data-test` value (even the empty
string, if the attribute is present) is what is compared. -/
def firstTestIdWins (el : ElemData) (value : Str) : Bool :=
  let a := getAttr el (str "data-testid")
  let b := getAttr el (str "data-qa")
  let c := getAttr el (str "data-test")
  if jsTruthy a then decide (a = some value)
  else if jsTruthy b then decide (b = some value)
  else decide (c = some value)

/-- A body element: `document.body.offsetParent` is null, so it is not
"visible" in the scripts' sense. -/
def bodyData (text : Str) : ElemData := ⟨str "body", [], text, [], false⟩

def submitButton : ElemData := ⟨str "button", [], str "Submit", [], true⟩

/-- Two sibling `<button>Submit</button>` elements with no test ids (spec §8). -/
def twinButtonsDoc : DomTree :=
  .node (bodyData (str "Submit Submit")) [.node submitButton [], .node submitButton []]

/-- The JS-dialect RoleName locator both twin buttons receive. -/
def twinButtonsLocator : Str :=
  str "page.getByRole(\x22button\x22, \x7b name: \x22Submit\x22, exact: true \x7d)"

/-- A document whose only element besides the body carries `data-testid=""`. -/
def emptyTestIdDoc : DomTree :=
  .node (bodyData []) [.node ⟨str "div", [(str "data-testid", [])], [], [], true⟩ []]

/-- The spec's `<button data-testid="submit-1">Submit</button>` scenario. -/
def testIdScenarioDoc : DomTree :=
  .node (bodyData (str "Submit"))
    [.node ⟨str "button", [(str "data-testid", str "submit-1")], str "Submit", [], true⟩ []]

/-- The spec's unique `<img alt="Logo">` scenario. -/
def logoImgDoc : DomTree :=
  .node (bodyData []) [.node ⟨str "img", [(str "alt", str "Logo")], [], [], true⟩ []]

/-- A lone body with no text: synthesis on it reaches the CSS fallback, whose
`getRelativeCSS(element, null)` dereference throws. -/
def bareBodyDoc : DomTree := .node (bodyData []) []

/-- An input whose placeholder strictly contains the probed value. -/
def placeholderInput : ElemData :=
  ⟨str "input", [(str "placeholder", str "username-field")], [], [], true⟩

def placeholderDoc : DomTree := .node (bodyData []) [.node placeholderInput []]

/-- An element carrying two test-id-family attributes with different values. -/
def doubleTestIdElem : ElemData :=
  ⟨str "div", [(str "data-testid", str "a"), (str "data-qa", str "b")], [], [], true⟩

def doubleTestIdDoc : DomTree := .node (bodyData []) [.node doubleTestIdElem []]

/-- Rendering of a chain-loop outcome at the strategy level. -/
def renderCR (isPytest : Bool) : ChainResC → ChainRes
  | .thrown => .thrown
  | .found c => .found (renderChoiceB isPytest c)
  | .fallthrough => .fallthrough

/-! ## Supporting lemmas

List-surgery facts about substring occurrence in concatenations, path
validity in the tree, and the congruence / totality / rendering lemmas about
the synthesizer. -/

theorem lookup_append (a b : List Nat) : ∀ t : DomTree,
    lookup (a ++ b) t = (lookup a t).bind (fun u => lookup b u) := by
  induction a with
  | nil => intro t; simp [lookup]
  | cons i a ih =>
    intro t
    simp only [List.cons_append, lookup]
    cases (DomTree.children t)[i]? with
    | none => rfl
    | some c => exact ih c

theorem nodeAt_isSome_of_pre {doc : DomTree} {q p : List Nat} (hq : q <+: p)
    (hp : (nodeAt doc p).isSome) : (nodeAt doc q).isSome := by
  obtain ⟨r, rfl⟩ := hq
  rw [nodeAt, lookup_append] at hp
  rw [nodeAt]
  cases h : lookup q doc with
  | none => rw [h] at hp; simp at hp
  | some t => simp

theorem nodeAt_dropLast_isSome {doc : DomTree} {p : List Nat}
    (hp : (nodeAt doc p).isSome) : (nodeAt doc p.dropLast).isSome := by
  have hpre := List.dropLast_prefix p
  exact nodeAt_isSome_of_pre hpre hp

theorem docSelSafeList_mem : ∀ (cs : List DomTree) (i : Nat) (c : DomTree),
    docSelSafeList cs = true → cs[i]? = some c → docSelSafe c = true := by
  intro cs
  induction cs with
  | nil => intro i c _ h; simp at h
  | cons x xs ih =>
    intro i c hall hget
    rw [docSelSafeList] at hall
    cases i with
    | zero =>
      simp only [List.getElem?_cons_zero, Option.some.injEq] at hget
      subst hget
      exact (Bool.and_eq_true_iff.mp hall).1
    | succ j =>
      exact ih j c (Bool.and_eq_true_iff.mp hall).2 (by simpa using hget)

theorem docSelSafe_lookup : ∀ (p : List Nat) (doc t : DomTree), docSelSafe doc = true →
    lookup p doc = some t → docSelSafe t = true := by
  intro p
  induction p with
  | nil =>
    intro doc t h hl
    rw [lookup] at hl
    cases hl
    exact h
  | cons i q ih =>
    intro doc t h hl
    rw [lookup] at hl
    cases hc : (DomTree.children doc)[i]? with
    | none => rw [hc] at hl; cases hl
    | some c =>
      rw [hc] at hl
      refine ih c t ?_ hl
      cases doc with
      | node d cs =>
        rw [docSelSafe] at h
        exact docSelSafeList_mem cs i c (Bool.and_eq_true_iff.mp h).2 (by simpa using hc)

theorem docSelSafe_baseSel {doc t : DomTree} {p : List Nat} (h : docSelSafe doc = true)
    (hl : nodeAt doc p = some t) : selValid (baseSelOf (DomTree.data t)) = true := by
  have ht := docSelSafe_lookup p doc t h hl
  cases t with
  | node d cs =>
    rw [docSelSafe] at ht
    exact (Bool.and_eq_true_iff.mp ht).1

theorem chainLoopP_congr (doc : DomTree) (elPath : List Nat) (role : Option Str)
    (isPytest : Bool) (r₁ r₂ : List Nat → Option Str) (n : Nat)
    (hr : ∀ q, q.length < n → r₁ q = r₂ q) :
    ∀ (rem : Nat) (par : Option (List Nat)),
      (∀ p₀, par = some p₀ → p₀.length < n) →
      chainLoopP doc elPath role isPytest r₁ rem par =
        chainLoopP doc elPath role isPytest r₂ rem par := by
  intro rem
  induction rem with
  | zero => intro par _; cases par <;> rfl
  | succ rem ih =>
    intro par hpar
    cases par with
    | none => rfl
    | some pPath =>
      have hlen : pPath.length < n := hpar pPath rfl
      have hnext : ∀ p₀, parentPath pPath = some p₀ → p₀.length < n := by
        intro p₀ hp
        cases pPath with
        | nil => simp [parentPath] at hp
        | cons a l =>
          simp only [parentPath, Option.some.injEq] at hp
          subst hp
          rw [List.length_dropLast]
          omega
      rw [chainLoopP, chainLoopP, hr pPath hlen]
      cases nodeAt doc pPath with
      | none => rfl
      | some pt =>
        simp only
        split
        · rfl
        · cases r₂ pPath with
          | none => rfl
          | some parentLocator =>
            simp only
            split
            · split
              · rfl
              · cases getRelativeCSS doc elPath (some pPath) with
                | none => rfl
                | some sel =>
                  simp only
                  split
                  · rfl
                  · exact ih (parentPath pPath) hnext
            · exact ih (parentPath pPath) hnext

theorem gblF_fuel_mono (doc : DomTree) (framework : Str) :
    ∀ (n : Nat) (path : List Nat) (f₁ f₂ : Nat), path.length = n → n < f₁ → n < f₂ →
      gblF f₁ doc path framework = gblF f₂ doc path framework := by
  intro n
  induction n using Nat.strong_induction_on with
  | _ n IH =>
    intro path f₁ f₂ hlen h₁ h₂
    obtain ⟨g₁, rfl⟩ : ∃ g, f₁ = g + 1 := ⟨f₁ - 1, by omega⟩
    obtain ⟨g₂, rfl⟩ : ∃ g, f₂ = g + 1 := ⟨f₂ - 1, by omega⟩
    rw [gblF, gblF]
    cases hnode : nodeAt doc path with
    | none => rfl
    | some t =>
      have hcc :
          chainLoopP doc path (getImplicitRole (DomTree.data t))
              (decide (framework = str "pytest")) (fun q => gblF g₁ doc q framework) 4
              (parentPath path) =
            chainLoopP doc path (getImplicitRole (DomTree.data t))
              (decide (framework = str "pytest")) (fun q => gblF g₂ doc q framework) 4
              (parentPath path) := by
        refine chainLoopP_congr doc path (getImplicitRole (DomTree.data t))
          (decide (framework = str "pytest")) _ _ n (fun q hq => ?_) 4 (parentPath path)
          (fun p₀ hp => ?_)
        · exact IH q.length hq q g₁ g₂ rfl (by omega) (by omega)
        · cases path with
          | nil => simp [parentPath] at hp
          | cons a l =>
            simp only [parentPath, Option.some.injEq] at hp
            subst hp
            rw [List.length_dropLast]
            simp only [List.length_cons] at hlen
            simp only [List.length_cons]
            omega
      simp only [hcc]

theorem getRelativeCSS_isSome {doc : DomTree} {elPath pp : List Nat} {t : DomTree}
    (hnode : nodeAt doc elPath = some t)
    (hsel : selValid (baseSelOf (DomTree.data t)) = true) :
    (getRelativeCSS doc elPath (some pp)).isSome := by
  rw [getRelativeCSS, hnode]
  dsimp only
  rw [if_neg (by simp [hsel])]
  split <;> simp

theorem chainLoopP_no_thrown (doc : DomTree) (elPath : List Nat) (role : Option Str)
    (isPytest : Bool) (r : List Nat → Option Str) (n : Nat) (tEl : DomTree)
    (hroot : rootTag doc = str "body")
    (hsafe : docSelSafe doc = true)
    (hel : nodeAt doc elPath = some tEl)
    (hr : ∀ q, q.length < n → q ≠ [] → (nodeAt doc q).isSome → (r q).isSome) :
    ∀ (rem : Nat) (par : Option (List Nat)),
      (∀ p₀, par = some p₀ → p₀.length < n ∧ (nodeAt doc p₀).isSome) →
      chainLoopP doc elPath role isPytest r rem par ≠ .thrown := by
  intro rem
  induction rem with
  | zero =>
    intro par _
    cases par <;> simp [chainLoopP]
  | succ rem ih =>
    intro par hpar
    cases par with
    | none => simp [chainLoopP]
    | some pPath =>
      obtain ⟨hplen, hpsome⟩ := hpar pPath rfl
      obtain ⟨pt, hpt⟩ := Option.isSome_iff_exists.mp hpsome
      have hnext : ∀ p₀, parentPath pPath = some p₀ →
          p₀.length < n ∧ (nodeAt doc p₀).isSome := by
        intro p₀ hp
        cases pPath with
        | nil => simp [parentPath] at hp
        | cons a l =>
          simp only [parentPath, Option.some.injEq] at hp
          subst hp
          constructor
          · rw [List.length_dropLast]
            simp only [List.length_cons] at hplen ⊢
            omega
          · exact nodeAt_dropLast_isSome hpsome
      rw [chainLoopP, hpt]
      by_cases hbody : (DomTree.data pt).tag = str "body"
      · simp [hbody]
      · have hpne : pPath ≠ [] := by
          intro hcon
          subst hcon
          rw [show nodeAt doc [] = some doc from rfl] at hpt
          cases hpt
          exact hbody hroot
        have hrp := hr pPath hplen hpne hpsome
        obtain ⟨pl, hpl⟩ := Option.isSome_iff_exists.mp hrp
        simp only [if_neg hbody, hpl]
        split
        · split
          · simp
          · have hrel := @getRelativeCSS_isSome doc elPath pPath tEl hel
              (docSelSafe_baseSel hsafe hel)
            obtain ⟨sel, hsel⟩ := Option.isSome_iff_exists.mp hrel
            simp only [hsel]
            split
            · simp
            · exact ih (parentPath pPath) hnext
        · exact ih (parentPath pPath) hnext

theorem gblF_total (doc : DomTree) (framework : Str)
    (hroot : rootTag doc = str "body") (hsafe : docSelSafe doc = true) :
    ∀ (n : Nat) (path : List Nat), path.length = n → path ≠ [] →
      (nodeAt doc path).isSome → ∀ fuel, n < fuel →
      (gblF fuel doc path framework).isSome := by
  intro n
  induction n using Nat.strong_induction_on with
  | _ n IH =>
    intro path hlen hne hsome fuel hfuel
    obtain ⟨g, rfl⟩ : ∃ g, fuel = g + 1 := ⟨fuel - 1, by omega⟩
    obtain ⟨t, ht⟩ := Option.isSome_iff_exists.mp hsome
    have hchain : chainLoopP doc path (getImplicitRole (DomTree.data t))
        (decide (framework = str "pytest")) (fun q => gblF g doc q framework) 4
        (parentPath path) ≠ .thrown := by
      apply chainLoopP_no_thrown doc path _ _ _ n t hroot hsafe ht
      · intro q hq hqne hqsome
        exact IH q.length hq q rfl hqne hqsome g (by omega)
      · intro p₀ hp
        cases path with
        | nil => exact absurd rfl hne
        | cons a l =>
          simp only [parentPath, Option.some.injEq] at hp
          subst hp
          refine ⟨?_, nodeAt_dropLast_isSome hsome⟩
          rw [List.length_dropLast]
          simp only [List.length_cons] at hlen ⊢
          omega
    have hrel : (getRelativeCSS doc path (some path.dropLast)).isSome :=
      getRelativeCSS_isSome ht (docSelSafe_baseSel hsafe ht)
    obtain ⟨sel, hsel⟩ := Option.isSome_iff_exists.mp hrel
    have hpp : parentPath path = some path.dropLast := by
      cases path with
      | nil => exact absurd rfl hne
      | cons a l => rfl
    rw [gblF, ht]
    dsimp only
    split
    · simp
    · split
      · simp
      · split
        · simp
        · split
          · simp
          · split
            · simp
            · split
              · simp
              · rw [hpp] at hchain ⊢
                cases hres : chainLoopP doc path (getImplicitRole (DomTree.data t))
                    (decide (framework = str "pytest")) (fun q => gblF g doc q framework) 4
                    (some path.dropLast) with
                | thrown => exact absurd hres hchain
                | found s => simp only [hres]; simp
                | fallthrough =>
                  simp only [hres, hsel]
                  simp


theorem infix_append_cases (p a b : List Char) :
    p <:+: a ++ b ↔ p <:+: a ∨ p <:+: b ∨
      ∃ k, 0 < k ∧ k < p.length ∧ p.take k <:+ a ∧ p.drop k <+: b := by
  constructor
  · rintro ⟨s, t, hst⟩
    rcases List.append_eq_append_iff.mp hst with ⟨a', ha, hb⟩ | ⟨c', hc, hd⟩
    · left
      exact ⟨s, a', by rw [ha]⟩
    · rcases List.append_eq_append_iff.mp hc with ⟨a2, ha2, hp2⟩ | ⟨c2, hs2, hc2⟩
      · by_cases h0 : a2 = []
        · subst h0
          right; left
          refine ⟨[], t, ?_⟩
          simp only [List.nil_append] at hp2 ⊢
          rw [hd, hp2]
        · by_cases h1 : c' = []
          · subst h1
            left
            refine ⟨s, [], ?_⟩
            rw [List.append_nil] at hp2 ⊢
            rw [ha2, hp2]
          · right; right
            refine ⟨a2.length, List.length_pos.mpr h0, ?_, ?_, ?_⟩
            · rw [hp2, List.length_append]
              have := List.length_pos.mpr h1
              omega
            · rw [hp2, List.take_left]
              exact ⟨s, ha2.symm⟩
            · rw [hp2, List.drop_left]
              exact ⟨t, hd.symm⟩
      · right; left
        refine ⟨c2, t, ?_⟩
        rw [hd, hc2]
  · rintro (⟨s, t, h⟩ | ⟨s, t, h⟩ | ⟨k, hk0, hkl, ⟨s, hs⟩, ⟨t, ht⟩⟩)
    · exact ⟨s, t ++ b, by rw [← List.append_assoc, h]⟩
    · exact ⟨a ++ s, t, by simp [← h, List.append_assoc]⟩
    · refine ⟨s, t, ?_⟩
      rw [← hs, ← ht]
      calc s ++ p ++ t = s ++ (p.take k ++ p.drop k) ++ t := by rw [List.take_append_drop]
      _ = s ++ p.take k ++ p.drop k ++ t := by
        rw [← List.append_assoc s (p.take k) (p.drop k)]
      _ = s ++ p.take k ++ (p.drop k ++ t) := by
        rw [List.append_assoc (s ++ p.take k) (p.drop k) t]

theorem headq_append_ne {x y : List Char} (hx : x ≠ []) : (x ++ y).head? = x.head? := by
  cases x with
  | nil => exact absurd rfl hx
  | cons c cs => rfl

theorem infix_append_left (p a r : List Char) (ha : ¬ p <:+: a)
    (hcross : ∀ k, k < p.length → 0 < k → ¬ p.take k <:+ a) :
    (p <:+: a ++ r) ↔ p <:+: r := by
  rw [infix_append_cases]
  constructor
  · rintro (h | h | ⟨k, hk0, hkp, hka, _⟩)
    · exact absurd h ha
    · exact h
    · exact absurd hka (hcross k hkp hk0)
  · exact fun h => Or.inr (Or.inl h)

theorem infix_append_headcase (p r x : List Char)
    (hh : ∀ k, k < p.length → 0 < k → (p.drop k).head? ≠ x.head?) :
    (p <:+: r ++ x) ↔ p <:+: r ∨ p <:+: x := by
  rw [infix_append_cases]
  constructor
  · rintro (h | h | ⟨k, hk0, hkp, _, hkb⟩)
    · exact Or.inl h
    · exact Or.inr h
    · exfalso
      obtain ⟨t, ht⟩ := hkb
      have hne : p.drop k ≠ [] := by
        intro hcon
        have := congrArg List.length hcon
        simp only [List.length_drop, List.length_nil] at this
        omega
      have : (p.drop k).head? = x.head? := by
        rw [← ht, headq_append_ne hne]
      exact hh k hkp hk0 this
  · rintro (h | h)
    · exact Or.inl h
    · exact Or.inr (Or.inl h)

theorem infix_tpl1 (p A B v : List Char)
    (hA : ¬ p <:+: A) (hB : ¬ p <:+: B)
    (hkA : ∀ k, k < p.length → 0 < k → ¬ p.take k <:+ A)
    (hBh : ∀ k, k < p.length → 0 < k → (p.drop k).head? ≠ B.head?) :
    (p <:+: A ++ (v ++ B)) ↔ p <:+: v := by
  rw [infix_append_left p A _ hA hkA, infix_append_headcase p v B hBh]
  simp [hB]

theorem infix_tpl2 (p A B C v w : List Char)
    (hA : ¬ p <:+: A) (hB : ¬ p <:+: B) (hC : ¬ p <:+: C) (hBne : B ≠ [])
    (hkA : ∀ k, k < p.length → 0 < k → ¬ p.take k <:+ A)
    (hkB : ∀ k, k < p.length → 0 < k → ¬ p.take k <:+ B)
    (hBh : ∀ k, k < p.length → 0 < k → (p.drop k).head? ≠ B.head?)
    (hCh : ∀ k, k < p.length → 0 < k → (p.drop k).head? ≠ C.head?) :
    (p <:+: A ++ (v ++ (B ++ (w ++ C)))) ↔ p <:+: v ∨ p <:+: w := by
  have hBhx : ∀ k, k < p.length → 0 < k → (p.drop k).head? ≠ (B ++ (w ++ C)).head? := by
    intro k h1 h2
    rw [headq_append_ne hBne]
    exact hBh k h1 h2
  rw [infix_append_left p A _ hA hkA,
    infix_append_headcase p v (B ++ (w ++ C)) hBhx,
    infix_append_left p B _ hB hkB,
    infix_append_headcase p w C hCh]
  simp [hC]

theorem stripPage_append (s : Str) : stripPage (str "page." ++ s) = s := by
  rw [stripPage]
  split
  · have h5 : (5 : Nat) = (str "page.").length := rfl
    rw [h5]
    exact List.drop_left (str "page.") s
  · next h => exact absurd ⟨s, rfl⟩ h

theorem render_chainedRole (b : Bool) (pc : Choice) (r : Str) :
    renderChoiceB b (.chainedRole pc r) =
      renderChoiceB b pc ++
        ((if b then str ".get_by_role(\x22" else str ".getByRole(\x22") ++
          (escapeStr r ++ str "\x22)")) := by
  have hf : stripPage (formatLocator b (str "getByRole") r none) =
      (if b then str "get_by_role(\x22" else str "getByRole(\x22") ++
        (escapeStr r ++ str "\x22)") := by
    have hform : formatLocator b (str "getByRole") r none =
        str "page." ++ ((if b then str "get_by_role(\x22" else str "getByRole(\x22") ++
          (escapeStr r ++ str "\x22)")) := by
      cases b <;> (simp [formatLocator, List.append_assoc]; rfl)
    rw [hform, stripPage_append]
  rw [renderChoiceB, hf]
  cases b <;> (simp [List.append_assoc]; rfl)

theorem render_chainedCss (b : Bool) (pc : Choice) (sel : SimpleSel) :
    renderChoiceB b (.chainedCss pc sel) =
      renderChoiceB b pc ++
        (str ".locator(\x22" ++ (escapeStr (renderSel sel) ++ str "\x22)")) := by
  rw [renderChoiceB]
  simp [List.append_assoc]

theorem render_cssFallback (b : Bool) (sel : SimpleSel) :
    renderChoiceB b (.cssFallback sel) =
      str "page.locator(\x22" ++
        (escapeStr (renderSel sel) ++ (str "\x22) " ++ cssWarnComment b)) := by
  rw [renderChoiceB]
  simp [List.append_assoc]

theorem render_chainedRole_js (pc : Choice) (r : Str) :
    renderChoiceB false (.chainedRole pc r) =
      renderChoiceB false pc ++ (str ".getByRole(\x22" ++ (escapeStr r ++ str "\x22)")) := by
  rw [render_chainedRole]
  rfl

theorem render_chainedRole_py (pc : Choice) (r : Str) :
    renderChoiceB true (.chainedRole pc r) =
      renderChoiceB true pc ++ (str ".get_by_role(\x22" ++ (escapeStr r ++ str "\x22)")) := by
  rw [render_chainedRole]
  rfl

theorem render_guard_agree (pat : Str)
    (hpat : pat = str "locator(" ∨ pat = str "WARNING") :
    ∀ (c : Choice) (b : Bool),
      (pat <:+: renderChoiceB b c) ↔ (pat <:+: renderChoiceB true c) := by
  intro c
  induction c with
  | testId v =>
    intro b
    cases b with
    | true => exact Iff.rfl
    | false =>
      have h1 : renderChoiceB false (.testId v) =
          str "page.getByTestId(\x22" ++ (escapeStr v ++ str "\x22)") := by
        simp [renderChoiceB, formatLocator, List.append_assoc]
        rfl
      have h2 : renderChoiceB true (.testId v) =
          str "page.get_by_test_id(\x22" ++ (escapeStr v ++ str "\x22)") := by
        simp [renderChoiceB, formatLocator, List.append_assoc]
        rfl
      rw [h1, h2]
      rcases hpat with rfl | rfl
      · rw [infix_tpl1 (str "locator(") (str "page.getByTestId(\x22") (str "\x22)") (escapeStr v)
            (by decide) (by decide) (by decide) (by decide),
          infix_tpl1 (str "locator(") (str "page.get_by_test_id(\x22") (str "\x22)") (escapeStr v)
            (by decide) (by decide) (by decide) (by decide)]
      · rw [infix_tpl1 (str "WARNING") (str "page.getByTestId(\x22") (str "\x22)") (escapeStr v)
            (by decide) (by decide) (by decide) (by decide),
          infix_tpl1 (str "WARNING") (str "page.get_by_test_id(\x22") (str "\x22)") (escapeStr v)
            (by decide) (by decide) (by decide) (by decide)]
  | roleName r n =>
    intro b
    cases b with
    | true => exact Iff.rfl
    | false =>
      have h1 : renderChoiceB false (.roleName r n) =
          str "page.getByRole(\x22" ++ (escapeStr r ++ (str "\x22, \x7b name: \x22" ++
            (escapeStr n ++ str "\x22, exact: true \x7d)"))) := by
        simp [renderChoiceB, formatLocator, fmtOptJs, fmtOptPy, joinSep, List.append_assoc]
        rfl
      have h2 : renderChoiceB true (.roleName r n) =
          str "page.get_by_role(\x22" ++ (escapeStr r ++ (str "\x22, name=\x22" ++
            (escapeStr n ++ str "\x22, exact=True)"))) := by
        simp [renderChoiceB, formatLocator, fmtOptJs, fmtOptPy, joinSep, List.append_assoc]
        rfl
      rw [h1, h2]
      rcases hpat with rfl | rfl
      · rw [infix_tpl2 (str "locator(") (str "page.getByRole(\x22") (str "\x22, \x7b name: \x22")
            (str "\x22, exact: true \x7d)") (escapeStr r) (escapeStr n)
            (by decide) (by decide) (by decide) (by decide) (by decide) (by decide)
            (by decide) (by decide),
          infix_tpl2 (str "locator(") (str "page.get_by_role(\x22") (str "\x22, name=\x22")
            (str "\x22, exact=True)") (escapeStr r) (escapeStr n)
            (by decide) (by decide) (by decide) (by decide) (by decide) (by decide)
            (by decide) (by decide)]
      · rw [infix_tpl2 (str "WARNING") (str "page.getByRole(\x22") (str "\x22, \x7b name: \x22")
            (str "\x22, exact: true \x7d)") (escapeStr r) (escapeStr n)
            (by decide) (by decide) (by decide) (by decide) (by decide) (by decide)
            (by decide) (by decide),
          infix_tpl2 (str "WARNING") (str "page.get_by_role(\x22") (str "\x22, name=\x22")
            (str "\x22, exact=True)") (escapeStr r) (escapeStr n)
            (by decide) (by decide) (by decide) (by decide) (by decide) (by decide)
            (by decide) (by decide)]
  | placeholder v =>
    intro b
    cases b with
    | true => exact Iff.rfl
    | false =>
      have h1 : renderChoiceB false (.placeholder v) =
          str "page.getByPlaceholder(\x22" ++ (escapeStr v ++ str "\x22, \x7b exact: true \x7d)") := by
        simp [renderChoiceB, formatLocator, fmtOptJs, fmtOptPy, joinSep, List.append_assoc]
        rfl
      have h2 : renderChoiceB true (.placeholder v) =
          str "page.get_by_placeholder(\x22" ++ (escapeStr v ++ str "\x22, exact=True)") := by
        simp [renderChoiceB, formatLocator, fmtOptJs, fmtOptPy, joinSep, List.append_assoc]
        rfl
      rw [h1, h2]
      rcases hpat with rfl | rfl
      · rw [infix_tpl1 (str "locator(") (str "page.getByPlaceholder(\x22") (str "\x22, \x7b exact: true \x7d)") (escapeStr v)
            (by decide) (by decide) (by decide) (by decide),
          infix_tpl1 (str "locator(") (str "page.get_by_placeholder(\x22") (str "\x22, exact=True)") (escapeStr v)
            (by decide) (by decide) (by decide) (by decide)]
      · rw [infix_tpl1 (str "WARNING") (str "page.getByPlaceholder(\x22") (str "\x22, \x7b exact: true \x7d)") (escapeStr v)
            (by decide) (by decide) (by decide) (by decide),
          infix_tpl1 (str "WARNING") (str "page.get_by_placeholder(\x22") (str "\x22, exact=True)") (escapeStr v)
            (by decide) (by decide) (by decide) (by decide)]
  | altText v =>
    intro b
    cases b with
    | true => exact Iff.rfl
    | false =>
      have h1 : renderChoiceB false (.altText v) =
          str "page.getByAltText(\x22" ++ (escapeStr v ++ str "\x22, \x7b exact: true \x7d)") := by
        simp [renderChoiceB, formatLocator, fmtOptJs, fmtOptPy, joinSep, List.append_assoc]
        rfl
      have h2 : renderChoiceB true (.altText v) =
          str "page.get_by_alt_text(\x22" ++ (escapeStr v ++ str "\x22, exact=True)") := by
        simp [renderChoiceB, formatLocator, fmtOptJs, fmtOptPy, joinSep, List.append_assoc]
        rfl
      rw [h1, h2]
      rcases hpat with rfl | rfl
      · rw [infix_tpl1 (str "locator(") (str "page.getByAltText(\x22") (str "\x22, \x7b exact: true \x7d)") (escapeStr v)
            (by decide) (by decide) (by decide) (by decide),
          infix_tpl1 (str "locator(") (str "page.get_by_alt_text(\x22") (str "\x22, exact=True)") (escapeStr v)
            (by decide) (by decide) (by decide) (by decide)]
      · rw [infix_tpl1 (str "WARNING") (str "page.getByAltText(\x22") (str "\x22, \x7b exact: true \x7d)") (escapeStr v)
            (by decide) (by decide) (by decide) (by decide),
          infix_tpl1 (str "WARNING") (str "page.get_by_alt_text(\x22") (str "\x22, exact=True)") (escapeStr v)
            (by decide) (by decide) (by decide) (by decide)]
  | text v =>
    intro b
    cases b with
    | true => exact Iff.rfl
    | false =>
      have h1 : renderChoiceB false (.text v) =
          str "page.getByText(\x22" ++ (escapeStr v ++ str "\x22, \x7b exact: true \x7d)") := by
        simp [renderChoiceB, formatLocator, fmtOptJs, fmtOptPy, joinSep, List.append_assoc]
        rfl
      have h2 : renderChoiceB true (.text v) =
          str "page.get_by_text(\x22" ++ (escapeStr v ++ str "\x22, exact=True)") := by
        simp [renderChoiceB, formatLocator, fmtOptJs, fmtOptPy, joinSep, List.append_assoc]
        rfl
      rw [h1, h2]
      rcases hpat with rfl | rfl
      · rw [infix_tpl1 (str "locator(") (str "page.getByText(\x22") (str "\x22, \x7b exact: true \x7d)") (escapeStr v)
            (by decide) (by decide) (by decide) (by decide),
          infix_tpl1 (str "locator(") (str "page.get_by_text(\x22") (str "\x22, exact=True)") (escapeStr v)
            (by decide) (by decide) (by decide) (by decide)]
      · rw [infix_tpl1 (str "WARNING") (str "page.getByText(\x22") (str "\x22, \x7b exact: true \x7d)") (escapeStr v)
            (by decide) (by decide) (by decide) (by decide),
          infix_tpl1 (str "WARNING") (str "page.get_by_text(\x22") (str "\x22, exact=True)") (escapeStr v)
            (by decide) (by decide) (by decide) (by decide)]
  | roleAlone v =>
    intro b
    cases b with
    | true => exact Iff.rfl
    | false =>
      have h1 : renderChoiceB false (.roleAlone v) =
          str "page.getByRole(\x22" ++ (escapeStr v ++ str "\x22)") := by
        simp [renderChoiceB, formatLocator, List.append_assoc]
        rfl
      have h2 : renderChoiceB true (.roleAlone v) =
          str "page.get_by_role(\x22" ++ (escapeStr v ++ str "\x22)") := by
        simp [renderChoiceB, formatLocator, List.append_assoc]
        rfl
      rw [h1, h2]
      rcases hpat with rfl | rfl
      · rw [infix_tpl1 (str "locator(") (str "page.getByRole(\x22") (str "\x22)") (escapeStr v)
            (by decide) (by decide) (by decide) (by decide),
          infix_tpl1 (str "locator(") (str "page.get_by_role(\x22") (str "\x22)") (escapeStr v)
            (by decide) (by decide) (by decide) (by decide)]
      · rw [infix_tpl1 (str "WARNING") (str "page.getByRole(\x22") (str "\x22)") (escapeStr v)
            (by decide) (by decide) (by decide) (by decide),
          infix_tpl1 (str "WARNING") (str "page.get_by_role(\x22") (str "\x22)") (escapeStr v)
            (by decide) (by decide) (by decide) (by decide)]
  | chainedRole pc r ih =>
    intro b
    cases b with
    | true => exact Iff.rfl
    | false =>
      rw [render_chainedRole_js, render_chainedRole_py]
      rcases hpat with rfl | rfl
      · have hdot : ∀ k, k < (str "locator(").length → 0 < k →
            ((str "locator(").drop k).head? ≠ some '.' := by decide
        rw [infix_append_headcase (str "locator(") (renderChoiceB false pc)
            (str ".getByRole(\x22" ++ (escapeStr r ++ str "\x22)"))
            (fun k h1 h2 => by
              rw [@headq_append_ne (str ".getByRole(\x22") (escapeStr r ++ str "\x22)") (by decide)]
              exact hdot k h1 h2),
          infix_append_headcase (str "locator(") (renderChoiceB true pc)
            (str ".get_by_role(\x22" ++ (escapeStr r ++ str "\x22)"))
            (fun k h1 h2 => by
              rw [@headq_append_ne (str ".get_by_role(\x22") (escapeStr r ++ str "\x22)") (by decide)]
              exact hdot k h1 h2),
          infix_tpl1 (str "locator(") (str ".getByRole(\x22") (str "\x22)") (escapeStr r)
            (by decide) (by decide) (by decide) (by decide),
          infix_tpl1 (str "locator(") (str ".get_by_role(\x22") (str "\x22)") (escapeStr r)
            (by decide) (by decide) (by decide) (by decide),
          ih false]
      · have hdot : ∀ k, k < (str "WARNING").length → 0 < k →
            ((str "WARNING").drop k).head? ≠ some '.' := by decide
        rw [infix_append_headcase (str "WARNING") (renderChoiceB false pc)
            (str ".getByRole(\x22" ++ (escapeStr r ++ str "\x22)"))
            (fun k h1 h2 => by
              rw [@headq_append_ne (str ".getByRole(\x22") (escapeStr r ++ str "\x22)") (by decide)]
              exact hdot k h1 h2),
          infix_append_headcase (str "WARNING") (renderChoiceB true pc)
            (str ".get_by_role(\x22" ++ (escapeStr r ++ str "\x22)"))
            (fun k h1 h2 => by
              rw [@headq_append_ne (str ".get_by_role(\x22") (escapeStr r ++ str "\x22)") (by decide)]
              exact hdot k h1 h2),
          infix_tpl1 (str "WARNING") (str ".getByRole(\x22") (str "\x22)") (escapeStr r)
            (by decide) (by decide) (by decide) (by decide),
          infix_tpl1 (str "WARNING") (str ".get_by_role(\x22") (str "\x22)") (escapeStr r)
            (by decide) (by decide) (by decide) (by decide),
          ih false]
  | chainedCss pc sel ih =>
    intro b
    cases b with
    | true => exact Iff.rfl
    | false =>
      rcases hpat with rfl | rfl
      · have hT : ∀ b', str "locator(" <:+: renderChoiceB b' (.chainedCss pc sel) := by
          intro b'
          rw [render_chainedCss]
          exact (by decide : str "locator(" <:+: str ".locator(\x22").trans
            ((List.prefix_append _ _).isInfix.trans (List.suffix_append _ _).isInfix)
        exact iff_of_true (hT false) (hT true)
      · have hdot : ∀ k, k < (str "WARNING").length → 0 < k →
            ((str "WARNING").drop k).head? ≠ some '.' := by decide
        rw [render_chainedCss false, render_chainedCss true,
          infix_append_headcase (str "WARNING") (renderChoiceB false pc)
            (str ".locator(\x22" ++ (escapeStr (renderSel sel) ++ str "\x22)"))
            (fun k h1 h2 => by
              rw [@headq_append_ne (str ".locator(\x22")
                (escapeStr (renderSel sel) ++ str "\x22)") (by decide)]
              exact hdot k h1 h2),
          infix_append_headcase (str "WARNING") (renderChoiceB true pc)
            (str ".locator(\x22" ++ (escapeStr (renderSel sel) ++ str "\x22)"))
            (fun k h1 h2 => by
              rw [@headq_append_ne (str ".locator(\x22")
                (escapeStr (renderSel sel) ++ str "\x22)") (by decide)]
              exact hdot k h1 h2),
          infix_tpl1 (str "WARNING") (str ".locator(\x22") (str "\x22)") (escapeStr (renderSel sel))
            (by decide) (by decide) (by decide) (by decide),
          ih false]
  | cssFallback sel =>
    intro b
    cases b with
    | true => exact Iff.rfl
    | false =>
      rcases hpat with rfl | rfl
      · have hT : ∀ b', str "locator(" <:+: renderChoiceB b' (.cssFallback sel) := by
          intro b'
          rw [render_cssFallback]
          exact (by decide : str "locator(" <:+: str "page.locator(\x22").trans
            (List.prefix_append _ _).isInfix
        exact iff_of_true (hT false) (hT true)
      · have hT : ∀ b', str "WARNING" <:+: renderChoiceB b' (.cssFallback sel) := by
          intro b'
          rw [render_cssFallback]
          have hsuf : cssWarnComment b' <:+ str "page.locator(\x22" ++
              (escapeStr (renderSel sel) ++ (str "\x22) " ++ cssWarnComment b')) :=
            (List.suffix_append _ _).trans
              ((List.suffix_append _ _).trans (List.suffix_append _ _))
          have hw : str "WARNING" <:+: cssWarnComment b' := by cases b' <;> decide
          exact hw.trans hsuf.isInfix
        exact iff_of_true (hT false) (hT true)

theorem containsStr_render_agree (c : Choice) (b : Bool) (pat : Str)
    (hpat : pat = str "locator(" ∨ pat = str "WARNING") :
    containsStr (renderChoiceB b c) pat = containsStr (renderChoiceB true c) pat := by
  unfold containsStr
  exact decide_eq_decide.mpr (render_guard_agree pat hpat c b)

theorem chainLoop_render (doc : DomTree) (elPath : List Nat) (role : Option Str)
    (isPytest : Bool) (r : List Nat → Option Str) (rc : List Nat → Option Choice)
    (hr : ∀ q, r q = (rc q).map (renderChoiceB isPytest)) :
    ∀ (rem : Nat) (par : Option (List Nat)),
      chainLoopP doc elPath role isPytest r rem par =
        renderCR isPytest (chooseChainP doc elPath role rc rem par) := by
  intro rem
  induction rem with
  | zero => intro par; cases par <;> rfl
  | succ rem ih =>
    intro par
    cases par with
    | none => rfl
    | some pPath =>
      rw [chainLoopP, chooseChainP, hr pPath]
      cases nodeAt doc pPath with
      | none => rfl
      | some pt =>
        by_cases hbody : (DomTree.data pt).tag = str "body"
        · simp only [if_pos hbody]
          rfl
        · simp only [if_neg hbody]
          cases rc pPath with
          | none => rfl
          | some pc =>
            simp only [Option.map_some']
            have hg1 := containsStr_render_agree pc isPytest (str "locator(") (Or.inl rfl)
            have hg2 := containsStr_render_agree pc isPytest (str "WARNING") (Or.inr rfl)
            rw [hg1, hg2]
            by_cases hguard : containsStr (renderChoiceB true pc) (str "locator(") = false ∧
                containsStr (renderChoiceB true pc) (str "WARNING") = false
            · rw [if_pos hguard, if_pos hguard]
              by_cases hrole : jsTruthy role = true ∧ isLocatorUniqueInScope doc
                  (str "getByRole") (role.getD []) elPath (some pPath) = true
              · rw [if_pos hrole, if_pos hrole]
                rfl
              · rw [if_neg hrole, if_neg hrole]
                cases getRelativeCSS doc elPath (some pPath) with
                | none => rfl
                | some sel =>
                  simp only
                  by_cases hlen : ((descendantPaths doc pPath).filter
                      (fun q => selMatches doc q sel)).length = 1
                  · rw [if_pos hlen, if_pos hlen]
                    rfl
                  · rw [if_neg hlen, if_neg hlen]
                    exact ih (parentPath pPath)
            · rw [if_neg hguard, if_neg hguard]
              exact ih (parentPath pPath)

theorem gblF_eq_choose (doc : DomTree) (framework : Str) :
    ∀ (fuel : Nat) (path : List Nat),
      gblF fuel doc path framework =
        (chooseF fuel doc path).map (renderChoiceB (decide (framework = str "pytest"))) := by
  intro fuel
  induction fuel with
  | zero => intro path; rfl
  | succ fuel ih =>
    intro path
    rw [gblF, chooseF]
    cases hnode : nodeAt doc path with
    | none => rfl
    | some t =>
      by_cases h1 : jsTruthy (testIdOf (DomTree.data t)) = true
      · simp only [if_pos h1]
        rfl
      · simp only [if_neg h1]
        by_cases h2 : jsTruthy (getImplicitRole (DomTree.data t)) = true ∧
            ¬ (getAccessibleName doc (DomTree.data t)).isEmpty = true
        · simp only [if_pos h2]
          rfl
        · simp only [if_neg h2]
          by_cases h3 : jsTruthy (getAttr (DomTree.data t) (str "placeholder")) = true
          · simp only [if_pos h3]
            rfl
          · simp only [if_neg h3]
            by_cases h4 : jsTruthy (getAttr (DomTree.data t) (str "alt")) = true
            · simp only [if_pos h4]
              rfl
            · simp only [if_neg h4]
              by_cases h5 : ¬ (getAccessibleName doc (DomTree.data t)).isEmpty = true
              · simp only [if_pos h5]
                rfl
              · simp only [if_neg h5]
                by_cases h6 : jsTruthy (getImplicitRole (DomTree.data t)) = true ∧
                    isLocatorUniqueInScope doc (str "getByRole")
                      ((getImplicitRole (DomTree.data t)).getD []) path none = true
                · simp only [if_pos h6]
                  rfl
                · simp only [if_neg h6]
                  rw [chainLoop_render doc path (getImplicitRole (DomTree.data t))
                    (decide (framework = str "pytest"))
                    (fun q => gblF fuel doc q framework) (fun q => chooseF fuel doc q)
                    (fun q => ih q) 4 (parentPath path)]
                  cases chooseChainP doc path (getImplicitRole (DomTree.data t))
                      (fun q => chooseF fuel doc q) 4 (parentPath path) with
                  | thrown => rfl
                  | found c => rfl
                  | fallthrough =>
                    cases getRelativeCSS doc path (parentPath path) with
                    | none => rfl
                    | some sel => rfl

/-! ## Claim theorems -/

/-- Claim C1 (corrected). The original claim fails: a test-id-family attribute
whose value is the empty string is skipped by the `||` chain's truthiness test,
so the node does not get a TestId locator (see `testid_ignored_when_empty`).
Amended: whenever the `data-testid || data-qa || data-test` chain yields a
truthy (non-empty) value, `generateBestLocator` returns the TestId locator for
that value, with no uniqueness check and regardless of any other attribute. -/
theorem testid_first_nonempty_wins (doc : DomTree) (path : List Nat) (framework : Str)
    (t : DomTree) (hnode : nodeAt doc path = some t)
    (htid : jsTruthy (testIdOf (DomTree.data t)) = true) :
    generateBestLocator doc path framework =
      some (formatLocator (decide (framework = str "pytest")) (str "getByTestId")
        ((testIdOf (DomTree.data t)).getD []) none) := by
  rw [generateBestLocator, gblF, hnode]
  dsimp only
  rw [if_pos htid]

set_option maxHeartbeats 1000000 in
theorem testid_first_nonempty_wins_witness :
    nodeAt testIdScenarioDoc [0] =
      some (DomTree.node ⟨str "button", [(str "data-testid", str "submit-1")],
        str "Submit", [], true⟩ []) ∧
    generateBestLocator testIdScenarioDoc [0] (str "pytest") =
      some (formatLocator (decide (str "pytest" = str "pytest")) (str "getByTestId")
        ((testIdOf ⟨str "button", [(str "data-testid", str "submit-1")],
          str "Submit", [], true⟩).getD []) none) :=
  ⟨rfl, testid_first_nonempty_wins testIdScenarioDoc [0] (str "pytest")
    (DomTree.node ⟨str "button", [(str "data-testid", str "submit-1")],
      str "Submit", [], true⟩ []) rfl (by decide)⟩

/-- Counterexample to the claim C1 as stated: the `div` carries
`data-testid=""` — the attribute is present — yet synthesis falls through every
tier to the CSS fallback, which is not a TestId-kind expression. -/
theorem testid_ignored_when_empty :
    (nodeAt emptyTestIdDoc [0]).map (fun t => getAttr (DomTree.data t) (str "data-testid")) =
      some (some []) ∧
    generateBestLocator emptyTestIdDoc [0] (str "pytest") =
      some (str "page.locator(\x22div\x22) # WARNING: CSS selector fallback. Consider adding a data-testid.") ∧
    containsStr (str "page.locator(\x22div\x22) # WARNING: CSS selector fallback. Consider adding a data-testid.")
      (str "test_id") = false := by
  refine ⟨rfl, by decide, by decide⟩

/-- Claim C2 (code bug). Two sibling `<button>Submit</button>` elements with no
test ids and identical accessible name: the role-and-name tier of
`generateBestLocator` fires with no uniqueness check, so BOTH siblings receive
the SAME bare `getByRole` expression — it contains no chaining segment at all —
instead of the chained expression the claim requires. -/
theorem twin_buttons_same_bare_rolename :
    generateBestLocator twinButtonsDoc [0] (str "js") = some twinButtonsLocator ∧
    generateBestLocator twinButtonsDoc [1] (str "js") = some twinButtonsLocator ∧
    containsStr twinButtonsLocator (str ").") = false ∧
    containsStr twinButtonsLocator (str ".locator(") = false := by
  refine ⟨by decide, by decide, by decide, by decide⟩

/-- Claim C3 (code bug). Round-trip fails: the expression synthesised for the
first twin button carries no WARNING annotation, yet resolving it with
`findAndHighlight` on the same unchanged tree matches BOTH buttons (count 2),
not the singleton containing the original target. -/
theorem roundtrip_twin_buttons_violation :
    generateBestLocator twinButtonsDoc [0] (str "js") = some twinButtonsLocator ∧
    containsStr twinButtonsLocator (str "WARNING") = false ∧
    findAndHighlight twinButtonsDoc twinButtonsLocator = some 2 := by
  refine ⟨by decide, by decide, by decide⟩

/-- Claim C4 (corrected). The original totality claim fails on the root `body`
element (see `synthesize_throws_on_root_body`): with `parentElement === null`
the CSS fallback's `getRelativeCSS(element, null)` dereferences null and the
exception escapes `generateBestLocator`. Amended: on every NON-root node of a
body-rooted document whose elements yield well-formed base selectors,
synthesis returns a value for either dialect and never throws. -/
theorem synthesize_total_on_nonroot (doc : DomTree) (path : List Nat) (framework : Str)
    (hroot : rootTag doc = str "body") (hsafe : docSelSafe doc = true)
    (hne : path ≠ []) (hsome : (nodeAt doc path).isSome = true) :
    (generateBestLocator doc path framework).isSome = true :=
  gblF_total doc framework hroot hsafe path.length path rfl hne hsome
    (path.length + 1) (Nat.lt_succ_self _)

theorem synthesize_total_on_nonroot_witness :
    rootTag twinButtonsDoc = str "body" ∧ docSelSafe twinButtonsDoc = true ∧
    ([0] : List Nat) ≠ [] ∧ (nodeAt twinButtonsDoc [0]).isSome = true ∧
    (generateBestLocator twinButtonsDoc [0] (str "js")).isSome = true :=
  ⟨by decide, by decide, by decide, by decide,
    synthesize_total_on_nonroot twinButtonsDoc [0] (str "js")
      (by decide) (by decide) (by decide) (by decide)⟩

/-- Counterexample to the claim C4 as stated: `synthesize` applied to the root
body element itself throws (modelled `none`) in both dialects. -/
theorem synthesize_throws_on_root_body :
    generateBestLocator bareBodyDoc [] (str "js") = none ∧
    generateBestLocator bareBodyDoc [] (str "pytest") = none := by
  refine ⟨by decide, by decide⟩

/-- Claim C5 (code bug). The `content.js` verifier is NOT total on malformed
input: `page.locator("[")` re-queries the extracted inner CSS `[` on a line
outside any try/catch, so the invalid-selector exception escapes
`findAndHighlight` (modelled `none`) instead of yielding a count of 0. The
`popup.js` variant `highlightElements` does catch it and returns 0. -/
theorem verifier_throws_on_bad_locator_css :
    findAndHighlight bareBodyDoc (str "page.locator(\x22[\x22)") = none ∧
    highlightElements bareBodyDoc (str "[") = 0 := by
  refine ⟨by decide, by decide⟩

/-- Claim C6 (corrected). The original equivalence fails: for `getByPlaceholder`
the verifier's matcher demands exact attribute equality while the Evaluator's
predicate does substring matching when `exact` is not set (see
`matcher_evaluator_placeholder_divergence`). Amended: for the `getByTestId`
method the two predicates do agree extensionally — both reduce to equality of
the first-truthy test-id attribute with the candidate value, with the parsed
options ignored. -/
theorem matcher_evaluator_agree_on_testid (doc : DomTree) (p : List Nat) (t : DomTree)
    (value rawArgs : Str) (opts : V2.VOpts) (hnode : nodeAt doc p = some t) :
    matcherPred doc (str "getByTestId") value rawArgs p =
      V2.matchesStrategy doc (str "getByTestId") value opts (DomTree.data t) := by
  rw [matcherPred, hnode]
  dsimp only
  rw [if_neg (by decide), if_neg (by decide), if_neg (by decide), if_neg (by decide),
    if_neg (by decide), if_neg (by decide), if_pos (by decide)]
  rw [V2.matchesStrategy]
  dsimp only
  rw [if_neg (by decide), if_neg (by decide), if_neg (by decide), if_neg (by decide),
    if_neg (by decide), if_neg (by decide), if_pos (by decide)]

theorem matcher_evaluator_agree_on_testid_witness :
    nodeAt testIdScenarioDoc [0] =
      some (DomTree.node ⟨str "button", [(str "data-testid", str "submit-1")],
        str "Submit", [], true⟩ []) ∧
    matcherPred testIdScenarioDoc (str "getByTestId") (str "submit-1") [] [0] =
      V2.matchesStrategy testIdScenarioDoc (str "getByTestId") (str "submit-1") V2.noOpts
        ⟨str "button", [(str "data-testid", str "submit-1")], str "Submit", [], true⟩ :=
  ⟨rfl, matcher_evaluator_agree_on_testid testIdScenarioDoc [0]
    (DomTree.node ⟨str "button", [(str "data-testid", str "submit-1")],
      str "Submit", [], true⟩ [])
    (str "submit-1") [] V2.noOpts rfl⟩

/-- Counterexample to the claim C6 as stated: probing value `username` against a
placeholder `username-field` — the Evaluator's substring predicate accepts it,
the verifier's matcher predicate rejects it. -/
theorem matcher_evaluator_placeholder_divergence :
    V2.matchesStrategy placeholderDoc (str "getByPlaceholder") (str "username")
      V2.noOpts placeholderInput = true ∧
    matcherPred placeholderDoc (str "getByPlaceholder") (str "username")
      (str "\x22username\x22") [0] = false := by
  refine ⟨by decide, by decide⟩

/-- Claim C7 (corrected). The scenario's expectation is wrong about the KIND:
for `<img alt="Logo">` the implicit role `img` and the accessible name `Logo`
(computed from the very `alt` attribute) make the role-and-name tier fire
BEFORE the AltText tier is ever reached (see `img_alt_scenario_counterexample`).
Amended: synthesis on that node returns, in either dialect, the RoleName
expression with role `img`, name `Logo`, `exact: true`. -/
theorem img_alt_scenario_rolename (framework : Str) :
    generateBestLocator logoImgDoc [0] framework =
      some (formatLocator (decide (framework = str "pytest")) (str "getByRole") (str "img")
        (some [(str "name", .s (str "Logo")), (str "exact", .b true)])) := by
  rw [generateBestLocator, gblF,
    show nodeAt logoImgDoc [0] =
      some (DomTree.node ⟨str "img", [(str "alt", str "Logo")], [], [], true⟩ []) from rfl]
  dsimp only
  rw [if_neg (by decide), if_pos (by decide),
    show getImplicitRole (DomTree.node ⟨str "img", [(str "alt", str "Logo")], [], [],
      true⟩ []).data = some (str "img") from rfl,
    show getAccessibleName logoImgDoc (DomTree.node ⟨str "img", [(str "alt", str "Logo")],
      [], [], true⟩ []).data = str "Logo" from rfl, Option.getD_some]

/-- Counterexample to the claim C7 as stated: the expression synthesised for the
unique `<img alt="Logo">` is a `getByRole` expression and mentions no
`AltText` method at all. -/
theorem img_alt_scenario_counterexample :
    generateBestLocator logoImgDoc [0] (str "js") =
      some (str "page.getByRole(\x22img\x22, \x7b name: \x22Logo\x22, exact: true \x7d)") ∧
    containsStr (str "page.getByRole(\x22img\x22, \x7b name: \x22Logo\x22, exact: true \x7d)")
      (str "AltText") = false := by
  refine ⟨by decide, by decide⟩

/-- Claim C8 (corrected). The original "at least one attribute equals the value"
reading is wrong: the Evaluator compares against `data-testid || data-qa ||
data-test`, so a truthy earlier attribute SHADOWS the later ones (see
`evaluator_testid_shadowing_counterexample`). Amended: the predicate holds iff
the FIRST truthy attribute of the family (or the raw `data-test` value when
`data-testid` and `data-qa` are both falsy) equals the candidate value. -/
theorem evaluator_testid_first_wins (doc : DomTree) (el : ElemData) (value : Str)
    (opts : V2.VOpts) :
    V2.matchesStrategy doc (str "getByTestId") value opts el = firstTestIdWins el value := by
  have h : V2.matchesStrategy doc (str "getByTestId") value opts el =
      decide (testIdOf el = some value) := by
    rw [V2.matchesStrategy]
    dsimp only
    rw [if_neg (by decide), if_neg (by decide), if_neg (by decide), if_neg (by decide),
      if_neg (by decide), if_neg (by decide), if_pos (by decide)]
  rw [h, firstTestIdWins, testIdOf]
  by_cases ha : jsTruthy (getAttr el (str "data-testid")) = true
  · simp [jsOr, ha]
  · by_cases hb : jsTruthy (getAttr el (str "data-qa")) = true
    · simp [jsOr, ha, hb]
    · simp [jsOr, ha, hb]

/-- Counterexample to the claim C8 as stated: the element carries
`data-qa="b"`, which equals the probed value `b`, yet the Evaluator's TestId
predicate rejects it because the truthy `data-testid="a"` shadows it. -/
theorem evaluator_testid_shadowing_counterexample :
    getAttr doubleTestIdElem (str "data-qa") = some (str "b") ∧
    V2.matchesStrategy doubleTestIdDoc (str "getByTestId") (str "b") V2.noOpts
      doubleTestIdElem = false := by
  refine ⟨by decide, by decide⟩

/-- Claim C9 (corrected). Strategy selection is indeed dialect-independent:
`generateBestLocator` factors as a dialect-free strategy choice (`chooseStrategy`)
followed by a dialect-only rendering (`renderChoice`), so both dialects pick the
same StrategyKind, value, options and chaining structure and differ only in
surface syntax. But the original claim's "both runs return without error" part
fails: on the root body element both runs throw
(see `dialect_error_on_root_counterexample`), so the amended claim drops it
and keeps the factorisation only. -/
theorem dialect_affects_rendering_only (doc : DomTree) (path : List Nat) (framework : Str) :
    generateBestLocator doc path framework =
      (chooseStrategy doc path).map (renderChoice framework) := by
  rw [generateBestLocator, gblF_eq_choose doc framework (path.length + 1) path, chooseStrategy]
  rfl

/-- Counterexample to the claim C9 as stated: on the root body element both the
`js` run and the `pytest` run error out, refuting "both runs return without
error". -/
theorem dialect_error_on_root_counterexample :
    generateBestLocator logoImgDoc [] (str "js") = none ∧
    generateBestLocator logoImgDoc [] (str "pytest") = none := by
  refine ⟨by decide, by decide⟩

/-- Claim C10 (confirmed). Termination of the ancestor recursion: the chaining
loop only recurses into strict ancestors, so any fuel exceeding the node's
depth is never exhausted and yields the canonical (fuel-free) result — the
recursion depth is bounded by the tree height and every call terminates. -/
theorem gblF_fuel_irrelevant (doc : DomTree) (path : List Nat) (framework : Str) (fuel : Nat)
    (h : path.length < fuel) :
    gblF fuel doc path framework = generateBestLocator doc path framework :=
  gblF_fuel_mono doc framework path.length path fuel (path.length + 1) rfl h (by omega)

theorem gblF_fuel_irrelevant_witness :
    ([0] : List Nat).length < 9 ∧
    gblF 9 logoImgDoc [0] (str "js") = generateBestLocator logoImgDoc [0] (str "js") :=
  ⟨by decide, gblF_fuel_irrelevant logoImgDoc [0] (str "js") 9 (by decide)⟩
